import Mathlib

/-
Verification development for the T2T mud telnet client (src/main.py).

The Python program is shallowly embedded: the planner (`OllamaPlanner`) and the
telnet session (`TelnetSession`) become explicit state records, their methods
become pure state-transition functions, and every externally visible action
(a line written to the terminal, bytes written to the connection, a planner
wake request, a stderr line) is collected in an explicit effect list.  The
regular expressions of the source are embedded as executable matchers over
`List Char` that follow the semantics of the corresponding Python patterns;
`time.monotonic()` timestamps are embedded as rationals supplied as inputs,
and `json.loads` is embedded by an executable recursive-descent JSON reader
covering the JSON subset the program exchanges with the oracle.
-/

set_option autoImplicit false

namespace T2T

/-! ## Character and string utilities -/

/-- Single-quote character, kept as a named constant. -/
def sq : Char := Char.ofNat 39

/-- Opening curly brace character. -/
def lbrace : Char := Char.ofNat 123

/-- Closing curly brace character. -/
def rbrace : Char := Char.ofNat 125

/-- String consisting of one single-quote character. -/
def sqs : String := String.mk [sq]

/-- ASCII lowercase conversion, matching Python `str.lower` on ASCII text. -/
def lcChar (c : Char) : Char :=
  if 64 < c.toNat ∧ c.toNat < 91 then Char.ofNat (c.toNat + 32) else c

/-- Lowercase a whole string (ASCII). -/
def lcStr (s : String) : String := String.mk (s.data.map lcChar)

/-- Python whitespace class: the characters matched by `\s` / stripped by
`str.strip()` on ASCII input. -/
def isPyWs (c : Char) : Bool :=
  c = ' ' ∨ c = '\t' ∨ c = '\n' ∨ c = '\r' ∨ c.toNat = 11 ∨ c.toNat = 12

/-- Drop trailing characters satisfying `p`. -/
def dropTrailing (p : Char → Bool) (l : List Char) : List Char :=
  (l.reverse.dropWhile p).reverse

/-- Python `str.strip()` (ASCII whitespace on both ends). -/
def pyStrip (s : String) : String :=
  String.mk (dropTrailing isPyWs (s.data.dropWhile isPyWs))

/-- Python `str.strip(chars)` for a single strip character. -/
def pyStripChar (ch : Char) (s : String) : String :=
  String.mk (dropTrailing (fun c => c = ch) (s.data.dropWhile (fun c => c = ch)))

/-- Helper for `collapseWs`: the flag records whether the previous character
was whitespace (so that a run contributes a single space). -/
def collapseWsAux : Bool → List Char → List Char
  | _, [] => []
  | inWs, c :: rest =>
    if isPyWs c then
      if inWs then collapseWsAux true rest else ' ' :: collapseWsAux true rest
    else c :: collapseWsAux false rest

/-- Python `re.sub(r"\s+", " ", s)`: collapse every whitespace run to one
space. -/
def collapseWs (l : List Char) : List Char := collapseWsAux false l

/-- Normalisation applied to sighted enemy names:
`re.sub(r"\s+", " ", raw_name).lower()`. -/
def normalizeName (s : String) : String := lcStr (String.mk (collapseWs s.data))

/-- Python `text.replace("\r", "")`. -/
def removeCR (s : String) : String := String.mk (s.data.filter (fun c => c ≠ '\r'))

/-- Python `str.splitlines()` restricted to the line breaks the program can
see on its ASCII byte stream: `\r\n`, `\r` and `\n`. -/
def splitLinesAux : List Char → List Char → List String
  | [], acc => if acc.isEmpty then [] else [String.mk acc.reverse]
  | '\r' :: '\n' :: rest, acc => String.mk acc.reverse :: splitLinesAux rest []
  | '\r' :: rest, acc => String.mk acc.reverse :: splitLinesAux rest []
  | '\n' :: rest, acc => String.mk acc.reverse :: splitLinesAux rest []
  | c :: rest, acc => splitLinesAux rest (c :: acc)

/-- Python `str.splitlines()` (without kept ends). -/
def pySplitlines (s : String) : List String := splitLinesAux s.data []

/-- Numeric value of a digit list, used for `int(...)` on a regex group. -/
def natOfDigits (ds : List Char) : Nat :=
  ds.foldl (fun n c => n * 10 + (c.toNat - 48)) 0

/-- Take the first `n` characters of a string. -/
def strTake (s : String) (n : Nat) : String := String.mk (s.data.take n)

/-- Drop the first `n` characters of a string. -/
def strDrop (s : String) (n : Nat) : String := String.mk (s.data.drop n)

/-- Slice `s[a:b]` in character indices. -/
def strSlice (s : String) (a b : Nat) : String :=
  String.mk ((s.data.drop a).take (b - a))

/-- `buffer[:start] + buffer[end:]`, the effect of `_remove_match`. -/
def removeSpan (s : String) (st en : Nat) : String := strTake s st ++ strDrop s en

/-- Remove a list of disjoint, left-to-right ordered spans. -/
def removeSpans (s : String) (spans : List (Nat × Nat)) : String :=
  spans.foldr (fun sp acc => removeSpan acc sp.1 sp.2) s

/-- Python `list[-n:]` for lists of strings. -/
def lastN {α : Type} (n : Nat) (xs : List α) : List α := xs.drop (xs.length - n)

/-- Append to a `deque(maxlen = cap)`: the oldest entries fall out on
overflow. -/
def pushCap {α : Type} (cap : Nat) (xs : List α) (x : α) : List α :=
  let ys := xs ++ [x]
  if cap < ys.length then ys.drop (ys.length - cap) else ys

/-! ## Matcher primitives

Each Python regex of the source is embedded as a matcher
`List Char → Option (Nat × γ)` giving, for a match attempt anchored at the
head of the list, the length of the matched region and its capture groups.
`searchPat` turns such an anchored matcher into `re.search` (leftmost match),
`searchAllAux` into `re.finditer`. -/

/-- Consume a literal, case-insensitively. -/
def eatLitCI : List Char → List Char → Option (List Char)
  | [], cs => some cs
  | _ :: _, [] => none
  | l :: ls, c :: cs => if lcChar l = lcChar c then eatLitCI ls cs else none

/-- Consume a literal, case-sensitively. -/
def eatLitCS : List Char → List Char → Option (List Char)
  | [], cs => some cs
  | _ :: _, [] => none
  | l :: ls, c :: cs => if l = c then eatLitCS ls cs else none

/-- Consume `\s*`. -/
def eatWsStar (cs : List Char) : List Char := cs.dropWhile isPyWs

/-- Consume `\s+`. -/
def eatWsPlus : List Char → Option (List Char)
  | [] => none
  | c :: rest => if isPyWs c then some (rest.dropWhile isPyWs) else none

/-- Consume `\d+`, returning the digits. -/
def eatDigitsPlus (cs : List Char) : Option (List Char × List Char) :=
  let p := cs.span Char.isDigit
  if p.1.isEmpty then none else some p

/-- Consume a maximal nonempty run of characters satisfying `p`. -/
def eatClassPlus (p : Char → Bool) (cs : List Char) : Option (List Char × List Char) :=
  let q := cs.span p
  if q.1.isEmpty then none else some q

/-- Length of the region consumed between `cs` and its suffix `rest`. -/
def mlen (cs rest : List Char) : Nat := cs.length - rest.length

/-- `re.search`: try the anchored matcher at every position, leftmost first.
Returns `(start, stop, groups)` in character indices. -/
def searchPat {γ : Type} (m : List Char → Option (Nat × γ)) :
    List Char → Nat → Option (Nat × Nat × γ)
  | cs, i =>
    match m cs with
    | some (len, g) => some (i, i + len, g)
    | none =>
      match cs with
      | [] => none
      | _ :: rest => searchPat m rest (i + 1)

/-- `re.search` over a string. -/
def strSearch {γ : Type} (m : List Char → Option (Nat × γ)) (s : String) :
    Option (Nat × Nat × γ) :=
  searchPat m s.data 0

/-- `re.finditer`: all non-overlapping matches, scanning left to right and
resuming after each match.  `fuel` bounds the recursion; it is instantiated
with the length of the text plus one. -/
def searchAllAux {γ : Type} (m : List Char → Option (Nat × γ)) :
    Nat → List Char → Nat → List (Nat × Nat × γ)
  | 0, _, _ => []
  | fuel + 1, cs, i =>
    match m cs with
    | some (len, g) =>
      let step := max len 1
      (i, i + len, g) :: searchAllAux m fuel (cs.drop step) (i + step)
    | none =>
      match cs with
      | [] => []
      | _ :: rest => searchAllAux m fuel rest (i + 1)

/-- `re.finditer` over a string. -/
def strSearchAll {γ : Type} (m : List Char → Option (Nat × γ)) (s : String) :
    List (Nat × Nat × γ) :=
  searchAllAux m (s.data.length + 1) s.data 0

/-- Anchored matcher for a case-insensitive literal pattern. -/
def litCIAt (lit : String) (cs : List Char) : Option (Nat × Unit) :=
  (eatLitCI lit.data cs).map (fun rest => (mlen cs rest, ()))

/-- Anchored matcher for a case-sensitive literal pattern. -/
def litCSAt (lit : String) (cs : List Char) : Option (Nat × Unit) :=
  (eatLitCS lit.data cs).map (fun rest => (mlen cs rest, ()))

/-- Anchored matcher for a case-sensitive literal followed by an optional
question mark (the `...\??` login patterns). -/
def litOptQAt (lit : String) (cs : List Char) : Option (Nat × Unit) :=
  match eatLitCS lit.data cs with
  | none => none
  | some rest =>
    match rest with
    | '?' :: rest2 => some (mlen cs rest2, ())
    | _ => some (mlen cs rest, ())

/-- Consume one expected character. -/
def eatChar (ch : Char) : List Char → Option (List Char)
  | [] => none
  | c :: rest => if c = ch then some rest else none

/-- Try a list of case-insensitive literal alternatives in order (regex
alternation such as `(?:find|discover|uncover|notice)`). -/
def altLitCI : List String → List Char → Option (List Char)
  | [], _ => none
  | l :: ls, cs =>
    match eatLitCI l.data cs with
    | some r => some r
    | none => altLitCI ls cs

/-- All start indices of case-insensitive occurrences of `needle`. -/
def occurrencesCI (needle : List Char) : List Char → Nat → List Nat
  | [], _ => []
  | c :: rest, i =>
    match eatLitCI needle (c :: rest) with
    | some _ => i :: occurrencesCI needle rest (i + 1)
    | none => occurrencesCI needle rest (i + 1)

/-- All start indices of case-sensitive occurrences of `needle`. -/
def occurrencesCS (needle : List Char) : List Char → Nat → List Nat
  | [], _ => []
  | c :: rest, i =>
    match eatLitCS needle (c :: rest) with
    | some _ => i :: occurrencesCS needle rest (i + 1)
    | none => occurrencesCS needle rest (i + 1)

/-- ASCII letter test (`[A-Za-z]`, and `[a-z]` under `re.IGNORECASE`). -/
def isAsciiLetter (c : Char) : Bool := c.isAlpha

/-- Consume `[^.]+\.`, returning the group before the dot (the shape of the
many `(?P<g>[^.]+)\.` captures; the excluded dot makes the greedy run
deterministic). -/
def eatToDot (cs : List Char) : Option (List Char × List Char) :=
  let p := cs.span (fun c => c ≠ '.')
  if p.1.isEmpty then none
  else
    match p.2 with
    | '.' :: rest => some (p.1, rest)
    | _ => none

/-- Anchored matcher for patterns of shape `<alt-literal-pre>([^.]+)\.`
(case-insensitive). -/
def preGroupDotAt (pres : List String) (cs : List Char) : Option (Nat × String) := do
  let r1 ← altLitCI pres cs
  let (g, rest) ← eatToDot r1
  pure (mlen cs rest, String.mk g)

/-- Anchored matcher for `<pre>[^\n]+<tail>` (case-insensitive) where the
greedy `[^\n]+` backtracks so `tail` matches at its last possible position
inside the line (e.g. `You hit [^\n]+ but to no effect\.`). -/
def midTailLineAt (pre tail : String) (cs : List Char) : Option (Nat × Unit) := do
  let r1 ← eatLitCI pre.data cs
  let seg := (r1.span (fun c => c ≠ '\n')).1
  let occs := (occurrencesCI tail.data seg 0).filter (fun j => 1 ≤ j)
  match occs.getLast? with
  | none => none
  | some j => pure (mlen cs r1 + j + tail.length, ())

/-! ## The patterns of src/main.py

Each definition named after a pattern constant of the source implements
`PATTERN.search(text)`, returning `(start, stop, groups)` in character
indices, or a `finditer`/per-pattern variant where the source uses one. -/

/-- Anchored matcher for `HP:\s*(?P<hp>\d+)\s+EP:\s*(?P<ep>\d+)>`
(case-sensitive). -/
def promptStatusAt (cs : List Char) : Option (Nat × (Nat × Nat)) := do
  let r1 ← eatLitCS "HP:".data cs
  let (hp, r2) ← eatDigitsPlus (eatWsStar r1)
  let r3 ← eatWsPlus r2
  let r4 ← eatLitCS "EP:".data r3
  let (ep, r5) ← eatDigitsPlus (eatWsStar r4)
  let r6 ← eatChar '>' r5
  pure (mlen cs r6, (natOfDigits hp, natOfDigits ep))

/-- `PROMPT_STATUS_PATTERN.search`. -/
def PROMPT_STATUS_PATTERN (s : String) : Option (Nat × Nat × (Nat × Nat)) :=
  strSearch promptStatusAt s

/-- `PROMPT_PATTERN.search` (`HP:\s*\d+\s+EP:\s*\d+>`, same text as the
status pattern, without capture groups). -/
def PROMPT_PATTERN (s : String) : Option (Nat × Nat × Unit) :=
  strSearch (fun cs => (promptStatusAt cs).map (fun r => (r.1, ()))) s

/-- Anchored matcher for `Travelto:\s+<alternatives>` (case-insensitive). -/
def traveltoAt (tails : List String) (cs : List Char) : Option (Nat × Unit) := do
  let r1 ← eatLitCI "Travelto:".data cs
  let r2 ← eatWsPlus r1
  let r3 ← altLitCI tails r2
  pure (mlen cs r3, ())

/-- `TRAVELTO_START_PATTERN.search`. -/
def TRAVELTO_START_PATTERN (s : String) : Option (Nat × Nat × Unit) :=
  strSearch (traveltoAt ["Journey begun"]) s

/-- `TRAVELTO_ABORT_PATTERN.search`. -/
def TRAVELTO_ABORT_PATTERN (s : String) : Option (Nat × Nat × Unit) :=
  strSearch (traveltoAt ["aborted"]) s

/-- `TRAVELTO_RESUME_PATTERN.search`. -/
def TRAVELTO_RESUME_PATTERN (s : String) : Option (Nat × Nat × Unit) :=
  strSearch (traveltoAt ["resuming journey"]) s

/-- `TRAVELTO_COMPLETE_PATTERN.search`
(`Travelto:\s+(?:Journey complete|arrived)`). -/
def TRAVELTO_COMPLETE_PATTERN (s : String) : Option (Nat × Nat × Unit) :=
  strSearch (traveltoAt ["Journey complete", "arrived"]) s

/-- `NO_GOLD_PATTERN.search` (`You don't have enough gold`). -/
def NO_GOLD_PATTERN (s : String) : Option (Nat × Nat × Unit) :=
  strSearch (litCIAt ("You don" ++ sqs ++ "t have enough gold")) s

/-- `RENT_ROOM_REQUIRED_PATTERN.search`. -/
def RENT_ROOM_REQUIRED_PATTERN (s : String) : Option (Nat × Nat × Unit) :=
  strSearch (litCIAt "You have not rented a room") s

/-- `TRAVELTO_SIGNPOST_PATTERN.search`. -/
def TRAVELTO_SIGNPOST_PATTERN (s : String) : Option (Nat × Nat × Unit) :=
  strSearch (litCIAt "Travelto can only be used at a signpost") s

/-- `SEARCH_FAIL_PATTERN.search`. -/
def SEARCH_FAIL_PATTERN (s : String) : Option (Nat × Nat × Unit) :=
  strSearch (litCIAt "You search but fail to find anything of interest.") s

/-- `SEARCH_SUCCESS_PATTERN.search`
(`You (?:find|discover|uncover|notice) (?P<discovery>[^.]+)\.`). -/
def SEARCH_SUCCESS_PATTERN (s : String) : Option (Nat × Nat × String) :=
  strSearch (preGroupDotAt ["You find ", "You discover ", "You uncover ", "You notice "]) s

/-- Matcher for one line against
`^\s*(?:An?|The)\s+(?P<name>[^\[]+?)\s*\[(?P<level>\d+)\]\s*$`: the
alternation is tried in order (`An`, `A`, `The`), each followed by `\s+`. -/
def targetKeyword (r0 : List Char) : Option (List Char) :=
  match eatLitCI "An".data r0 with
  | some r =>
    match eatWsPlus r with
    | some r2 => some r2
    | none =>
      match eatLitCI "A".data r0 with
      | some ra =>
        match eatWsPlus ra with
        | some r2 => some r2
        | none => (eatLitCI "The".data r0).bind eatWsPlus
      | none => (eatLitCI "The".data r0).bind eatWsPlus
  | none =>
    match eatLitCI "A".data r0 with
    | some ra =>
      match eatWsPlus ra with
      | some r2 => some r2
      | none => (eatLitCI "The".data r0).bind eatWsPlus
    | none => (eatLitCI "The".data r0).bind eatWsPlus

/-- Match one whole line of the buffer against `TARGET_LINE_PATTERN`.  The
lazy `[^\[]+?\s*\[` pair is deterministic because `[` is excluded from the
class: the name runs to the first `[` with its trailing whitespace given to
`\s*`.  Returns the line length and the `(name, level)` groups. -/
def targetLineMatch (line : List Char) : Option (Nat × (String × String)) := do
  let r1 ← targetKeyword (eatWsStar line)
  let p := r1.span (fun c => c ≠ '[')
  let r2 ← eatChar '[' p.2
  let nm := dropTrailing isPyWs p.1
  if nm.isEmpty then none
  else
    let (ds, r3) ← eatDigitsPlus r2
    let r4 ← eatChar ']' r3
    if (r4.dropWhile isPyWs).isEmpty then
      pure (line.length, (String.mk nm, String.mk ds))
    else none

/-- Lines of a character list together with their start offsets (splitting
on `\n`; a `\r` stays inside its line, where the trailing `\s*$` of a
multiline pattern absorbs it). -/
def linesOffAux : List Char → Nat → List Char → Nat → List (Nat × List Char)
  | [], st, acc, _ => [(st, acc.reverse)]
  | '\n' :: rest, st, acc, i =>
    (st, acc.reverse) :: linesOffAux rest (i + 1) [] (i + 1)
  | c :: rest, st, acc, i => linesOffAux rest st (c :: acc) (i + 1)

/-- Lines with offsets of a string. -/
def linesWithOffsets (s : String) : List (Nat × List Char) := linesOffAux s.data 0 [] 0

/-- `TARGET_LINE_PATTERN.search` (multiline): the first line that matches,
with the span of the whole line. -/
def TARGET_LINE_PATTERN (s : String) : Option (Nat × Nat × (String × String)) :=
  ((linesWithOffsets s).filterMap fun pr =>
    (targetLineMatch pr.2).map fun m => (pr.1, pr.1 + m.1, m.2)).head?

/-- Anchored matcher for `Gold:\s*(?P<amount>\d+)` (case-insensitive). -/
def goldStatusAt (cs : List Char) : Option (Nat × Nat) := do
  let r1 ← eatLitCI "Gold:".data cs
  let (ds, r2) ← eatDigitsPlus (eatWsStar r1)
  pure (mlen cs r2, natOfDigits ds)

/-- `GOLD_STATUS_PATTERN.finditer` (the source takes the last match). -/
def GOLD_STATUS_PATTERN_finditer (s : String) : List (Nat × Nat × Nat) :=
  strSearchAll goldStatusAt s

/-- Anchored matcher for
`Gold:\s*(?P<gold>\d+)\s+Encumbrance:\s*(?P<encumbrance>[A-Za-z ]+)`. -/
def inventoryHeaderAt (cs : List Char) : Option (Nat × (Nat × String)) := do
  let r1 ← eatLitCI "Gold:".data cs
  let (g, r2) ← eatDigitsPlus (eatWsStar r1)
  let r3 ← eatWsPlus r2
  let r4 ← eatLitCI "Encumbrance:".data r3
  let (e, r5) ← eatClassPlus (fun c => isAsciiLetter c ∨ c = ' ') (eatWsStar r4)
  pure (mlen cs r5, (natOfDigits g, String.mk e))

/-- `INVENTORY_HEADER_PATTERN.search`. -/
def INVENTORY_HEADER_PATTERN (s : String) : Option (Nat × Nat × (Nat × String)) :=
  strSearch inventoryHeaderAt s

/-- `INVENTORY_EMPTY_PATTERN.search`. -/
def INVENTORY_EMPTY_PATTERN (s : String) : Option (Nat × Nat × Unit) :=
  strSearch (litCIAt "You are not carrying any items right now.") s

/-- `INVENTORY_LIST_PATTERN.search`. -/
def INVENTORY_LIST_PATTERN (s : String) : Option (Nat × Nat × Unit) :=
  strSearch (litCIAt "You are carrying the following on your person:") s

/-- `MENU_HINT_PATTERN.search`. -/
def MENU_HINT_PATTERN (s : String) : Option (Nat × Nat × Unit) :=
  strSearch (litCIAt "Try reading the menu.") s

/-- `BOARD_HELP_PATTERN.search` (`Type 'help board'`). -/
def BOARD_HELP_PATTERN (s : String) : Option (Nat × Nat × Unit) :=
  strSearch (litCIAt ("Type " ++ sqs ++ "help board" ++ sqs)) s

/-- `BLANK_RESPONSE_PATTERN.search`. -/
def BLANK_RESPONSE_PATTERN (s : String) : Option (Nat × Nat × Unit) :=
  strSearch (litCIAt "looks at you blankly.") s

/-- `NO_STOCK_PATTERN.search`. -/
def NO_STOCK_PATTERN (s : String) : Option (Nat × Nat × Unit) :=
  strSearch (litCIAt "does not have any of that.") s

/-- `NO_QUESTS_PATTERN.search`. -/
def NO_QUESTS_PATTERN (s : String) : Option (Nat × Nat × Unit) :=
  strSearch (litCIAt "No quests done yet.") s

/-- `NEWS_ALERT_PATTERN.search`. -/
def NEWS_ALERT_PATTERN (s : String) : Option (Nat × Nat × Unit) :=
  strSearch (litCIAt "News in Arda!") s

/-- `UPDATES_ALERT_PATTERN.search`. -/
def UPDATES_ALERT_PATTERN (s : String) : Option (Nat × Nat × Unit) :=
  strSearch (litCIAt "There are many new updates") s

/-- `EMAIL_REMINDER_PATTERN.search`. -/
def EMAIL_REMINDER_PATTERN (s : String) : Option (Nat × Nat × Unit) :=
  strSearch (litCIAt "You have not yet set your email address.") s

/-- `LOCATION_AT_PATTERN.search`
(`You are currently at (?P<location>[^.]+)\.`). -/
def LOCATION_AT_PATTERN (s : String) : Option (Nat × Nat × String) :=
  strSearch (preGroupDotAt ["You are currently at "]) s

/-- `ROOM_NAME_PATTERNS`, searched in order by the source. -/
def ROOM_NAME_PATTERNS : List (String → Option (Nat × Nat × String)) :=
  [ fun s => strSearch (preGroupDotAt ["This is the "]) s,
    fun s => strSearch (preGroupDotAt ["This room is "]) s,
    fun s => strSearch (preGroupDotAt ["This area is "]) s,
    fun s => strSearch (preGroupDotAt ["Welcome to "]) s ]

/-- `EXITS_PATTERN.search` (`The only obvious exits are (?P<exits>[^.]+)\.`). -/
def EXITS_PATTERN (s : String) : Option (Nat × Nat × String) :=
  strSearch (preGroupDotAt ["The only obvious exits are "]) s

/-- Anchored matcher for `Obvious exits: (?P<exits>[^\r\n]+)`. -/
def altExitsAt (cs : List Char) : Option (Nat × String) := do
  let r1 ← eatLitCI "Obvious exits: ".data cs
  let (g, rest) ← eatClassPlus (fun c => c ≠ '\r' ∧ c ≠ '\n') r1
  pure (mlen cs rest, String.mk g)

/-- `ALT_EXITS_PATTERN.search`. -/
def ALT_EXITS_PATTERN (s : String) : Option (Nat × Nat × String) :=
  strSearch altExitsAt s

/-- One `(?:\n\s*[A-Za-z]+:[^\n]+)` group of the standard-exits block. -/
def stdExitLine (cs : List Char) : Option (List Char) := do
  let r1 ← eatChar '\n' cs
  let (_, r2) ← eatClassPlus isAsciiLetter (eatWsStar r1)
  let r3 ← eatChar ':' r2
  let (_, r4) ← eatClassPlus (fun c => c ≠ '\n') r3
  pure r4

/-- Consume as many standard-exits line groups as possible. -/
def stdExitsLoop : Nat → List Char → List Char
  | 0, cs => cs
  | fuel + 1, cs =>
    match stdExitLine cs with
    | some rest => stdExitsLoop fuel rest
    | none => cs

/-- Anchored matcher for
`Standard exits:(?P<block>(?:\n\s*[A-Za-z]+:[^\n]+)+)`; the group is the
consumed block. -/
def standardExitsAt (cs : List Char) : Option (Nat × String) := do
  let r1 ← eatLitCI "Standard exits:".data cs
  let r2 ← stdExitLine r1
  let rest := stdExitsLoop r1.length r2
  pure (mlen cs rest, String.mk (r1.take (r1.length - rest.length)))

/-- `STANDARD_EXITS_PATTERN.search`. -/
def STANDARD_EXITS_PATTERN (s : String) : Option (Nat × Nat × String) :=
  strSearch standardExitsAt s

/-- `re.findall(r"^\s*([A-Za-z]+):", block, re.MULTILINE)` applied to the
standard-exits block: per line, the leading letter run before a colon. -/
def exitOptionsOfBlock (block : String) : List String :=
  (pySplitlines block).filterMap fun line => do
    let (d, r2) ← eatClassPlus isAsciiLetter (eatWsStar line.data)
    let _ ← eatChar ':' r2
    pure (String.mk d)

/-- `SKY_PATTERN.search` (`The sky is (?P<sky>[^.]+)\.`). -/
def SKY_PATTERN (s : String) : Option (Nat × Nat × String) :=
  strSearch (preGroupDotAt ["The sky is "]) s

/-- `TIME_OF_DAY_PATTERN.search`
(`The sun (?:shines|has set|is) (?P<detail>[^.]+)\.`). -/
def TIME_OF_DAY_PATTERN (s : String) : Option (Nat × Nat × String) :=
  strSearch (preGroupDotAt ["The sun shines ", "The sun has set ", "The sun is "]) s

/-- `PATH_CONTINUES_PATTERN.search`. -/
def PATH_CONTINUES_PATTERN (s : String) : Option (Nat × Nat × String) :=
  strSearch (preGroupDotAt ["The path continues "]) s

/-- Anchored matcher for
`The City of (?P<city>[^.]+) is (?P<direction>[^.]+)\.`: both groups live in
the dot-free segment, and the greedy first group picks the last ` is `
inside it. -/
def cityNearAt (cs : List Char) : Option (Nat × (String × String)) := do
  let r1 ← eatLitCI "The City of ".data cs
  let (seg, r2) ← eatToDot r1
  let occs := (occurrencesCI " is ".data seg 0).filter
    (fun j => 1 ≤ j ∧ j + 4 < seg.length)
  match occs.getLast? with
  | none => none
  | some j => pure (mlen cs r2, (String.mk (seg.take j), String.mk (seg.drop (j + 4))))

/-- `CITY_NEAR_PATTERN.search`. -/
def CITY_NEAR_PATTERN (s : String) : Option (Nat × Nat × (String × String)) :=
  strSearch cityNearAt s

/-- `FORGE_PATH_PATTERN.search`. -/
def FORGE_PATH_PATTERN (s : String) : Option (Nat × Nat × Unit) :=
  strSearch (litCIAt "It appears to lead to a forge") s

/-- Anchored matcher for `The (?P<direction>[a-z]+) door is closed\.`
(case-insensitive, so the class is any letter). -/
def closedDoorAt (cs : List Char) : Option (Nat × String) := do
  let r1 ← eatLitCI "The ".data cs
  let (d, r2) ← eatClassPlus isAsciiLetter r1
  let r3 ← eatLitCI " door is closed.".data r2
  pure (mlen cs r3, String.mk d)

/-- `CLOSED_DOOR_PATTERN.search`. -/
def CLOSED_DOOR_PATTERN (s : String) : Option (Nat × Nat × String) :=
  strSearch closedDoorAt s

/-- `CORPSE_MISSING_PATTERN.search`. -/
def CORPSE_MISSING_PATTERN (s : String) : Option (Nat × Nat × Unit) :=
  strSearch (litCIAt "There is not a single corpse here to get.") s

/-- `NO_EFFECT_PATTERN.search` (`You hit [^\n]+ but to no effect\.`). -/
def NO_EFFECT_PATTERN (s : String) : Option (Nat × Nat × Unit) :=
  strSearch (midTailLineAt "You hit " " but to no effect.") s

/-- `LOW_DAMAGE_PATTERN.search` (`You scratch [^\n]+\.`). -/
def LOW_DAMAGE_PATTERN (s : String) : Option (Nat × Nat × Unit) :=
  strSearch (midTailLineAt "You scratch " ".") s

/-- `BUSY_ATTACK_PATTERN.search`. -/
def BUSY_ATTACK_PATTERN (s : String) : Option (Nat × Nat × Unit) :=
  strSearch (litCIAt "You are too busy to make an attack!") s

/-- `ITEM_BELONGS_PATTERN.search`. -/
def ITEM_BELONGS_PATTERN (s : String) : Option (Nat × Nat × Unit) :=
  strSearch (litCIAt "belongs to the") s

/-- `WIELD_WHAT_PATTERN.search`. -/
def WIELD_WHAT_PATTERN (s : String) : Option (Nat × Nat × Unit) :=
  strSearch (litCIAt "Wield what?") s

/-- Character class `[\w' -]` (under `re.IGNORECASE`). -/
def considerClassChar (c : Char) : Bool :=
  c.isAlphanum ∨ c = '_' ∨ c = sq ∨ c = ' ' ∨ c = '-'

/-- Greedy backtracking step shared by `CONSIDER_PATTERN`: try the candidate
split points (descending) of the class run, requiring `[^.]+\.` after the
4-character ` is ` separator. -/
def considerPick (cs s : List Char) : List Nat → Option (Nat × (String × String))
  | [] => none
  | j :: rest =>
    match eatToDot (cs.drop (j + 4)) with
    | some (assess, rem) =>
      some (cs.length - rem.length, (String.mk (s.take j), String.mk assess))
    | none => considerPick cs s rest

/-- Anchored matcher for
`(?P<target>[A-Z][\w' -]+) is (?P<assessment>[^.]+)\.` (case-insensitive):
the greedy class run backtracks to the last ` is ` that lets `[^.]+\.`
match. -/
def considerAt (cs : List Char) : Option (Nat × (String × String)) :=
  match cs with
  | [] => none
  | c0 :: rest =>
    if isAsciiLetter c0 then
      let s := c0 :: (rest.span considerClassChar).1
      let occs := (occurrencesCI " is ".data s 0).filter (fun j => 2 ≤ j)
      considerPick cs s occs.reverse
    else none

/-- `CONSIDER_PATTERN.search`. -/
def CONSIDER_PATTERN (s : String) : Option (Nat × Nat × (String × String)) :=
  strSearch considerAt s

/-- Anchored matcher for `Perhaps it could be (?P<action>[a-z]+)`
(case-insensitive). -/
def suggestActionAt (cs : List Char) : Option (Nat × String) := do
  let r1 ← eatLitCI "Perhaps it could be ".data cs
  let (a, r2) ← eatClassPlus isAsciiLetter r1
  pure (mlen cs r2, String.mk a)

/-- `SUGGEST_ACTION_PATTERN.search`. -/
def SUGGEST_ACTION_PATTERN (s : String) : Option (Nat × Nat × String) :=
  strSearch suggestActionAt s

/-- `MAP_SUGGESTION_PATTERN.search` (`use the 'map' command`). -/
def MAP_SUGGESTION_PATTERN (s : String) : Option (Nat × Nat × Unit) :=
  strSearch (litCIAt ("use the " ++ sqs ++ "map" ++ sqs ++ " command")) s

/-- Anchored matcher for `\*\*\* HINT \*\*\*\s*:\s*(?P<hint>.+)`
(case-sensitive; `.` excludes newlines). -/
def hintSuggestAt (cs : List Char) : Option (Nat × String) := do
  let r1 ← eatLitCS "*** HINT ***".data cs
  let r2 ← eatChar ':' (eatWsStar r1)
  let (h, r3) ← eatClassPlus (fun c => c ≠ '\n') (eatWsStar r2)
  pure (mlen cs r3, String.mk h)

/-- `HINT_SUGGESTION_PATTERN.search`. -/
def HINT_SUGGESTION_PATTERN (s : String) : Option (Nat × Nat × String) :=
  strSearch hintSuggestAt s

/-- Anchored matcher for `You gain (?P<xp>\d+) experience`
(case-insensitive); the source keeps the group as text. -/
def xpGainAt (cs : List Char) : Option (Nat × String) := do
  let r1 ← eatLitCI "You gain ".data cs
  let (ds, r2) ← eatDigitsPlus r1
  let r3 ← eatLitCI " experience".data r2
  pure (mlen cs r3, String.mk ds)

/-- `EXPERIENCE_GAIN_PATTERN.search`. -/
def EXPERIENCE_GAIN_PATTERN (s : String) : Option (Nat × Nat × String) :=
  strSearch xpGainAt s

/-- Anchored matcher for
`You (?:get|receive) (?P<amount>\d+) gold(?: coins?)?` (case-insensitive);
the optional suffix is taken greedily (`coins` before `coin` before
nothing). -/
def coinGainAt (cs : List Char) : Option (Nat × Nat) := do
  let r1 ← altLitCI ["You get ", "You receive "] cs
  let (ds, r2) ← eatDigitsPlus r1
  let r3 ← eatLitCI " gold".data r2
  let r4 :=
    match eatLitCI " coins".data r3 with
    | some r => r
    | none =>
      match eatLitCI " coin".data r3 with
      | some r => r
      | none => r3
  pure (mlen cs r4, natOfDigits ds)

/-- `COIN_GAIN_PATTERN.search`. -/
def COIN_GAIN_PATTERN (s : String) : Option (Nat × Nat × Nat) :=
  strSearch coinGainAt s

/-- `ITEM_ACQUIRE_PATTERN.search`
(`You (?:get|take|obtain) (?P<item>[^.]+)\.`). -/
def ITEM_ACQUIRE_PATTERN (s : String) : Option (Nat × Nat × String) :=
  strSearch (preGroupDotAt ["You get ", "You take ", "You obtain "]) s

/-- Anchored matcher for `You have advanced to level (?P<level>\d+)`; the
source keeps the group as text. -/
def levelUpAt (cs : List Char) : Option (Nat × String) := do
  let r1 ← eatLitCI "You have advanced to level ".data cs
  let (ds, r2) ← eatDigitsPlus r1
  pure (mlen cs r2, String.mk ds)

/-- `LEVEL_UP_PATTERN.search`. -/
def LEVEL_UP_PATTERN (s : String) : Option (Nat × Nat × String) :=
  strSearch levelUpAt s

/-- Anchored matcher for
`Your (?:skill|ability) in (?P<skill>[^ ]+) (?:has )?improved`: the class
run stops at the first space, making the greedy run deterministic, and the
optional `has ` can be committed to when present. -/
def skillImproveAt (cs : List Char) : Option (Nat × String) := do
  let r1 ← altLitCI ["Your skill in ", "Your ability in "] cs
  let (sk, r2) ← eatClassPlus (fun c => c ≠ ' ') r1
  let r3 ← eatChar ' ' r2
  let r4 :=
    match eatLitCI "has ".data r3 with
    | some r => r
    | none => r3
  let r5 ← eatLitCI "improved".data r4
  pure (mlen cs r5, String.mk sk)

/-- `SKILL_IMPROVE_PATTERN.search`. -/
def SKILL_IMPROVE_PATTERN (s : String) : Option (Nat × Nat × String) :=
  strSearch skillImproveAt s

/-- `REST_COMPLETE_PATTERN.search`. -/
def REST_COMPLETE_PATTERN (s : String) : Option (Nat × Nat × Unit) :=
  strSearch (litCIAt "You feel rested") s

/-- Anchored matcher for `You open the (?P<direction>[a-z]+) door`. -/
def doorOpenedAt (cs : List Char) : Option (Nat × String) := do
  let r1 ← eatLitCI "You open the ".data cs
  let (d, r2) ← eatClassPlus isAsciiLetter r1
  let r3 ← eatLitCI " door".data r2
  pure (mlen cs r3, String.mk d)

/-- `DOOR_OPENED_PATTERN.search`. -/
def DOOR_OPENED_PATTERN (s : String) : Option (Nat × Nat × String) :=
  strSearch doorOpenedAt s

/-- Anchored matcher for `The (?P<direction>[a-z]+) door is locked`. -/
def doorLockedAt (cs : List Char) : Option (Nat × String) := do
  let r1 ← eatLitCI "The ".data cs
  let (d, r2) ← eatClassPlus isAsciiLetter r1
  let r3 ← eatLitCI " door is locked".data r2
  pure (mlen cs r3, String.mk d)

/-- `DOOR_LOCKED_PATTERN.search`. -/
def DOOR_LOCKED_PATTERN (s : String) : Option (Nat × Nat × String) :=
  strSearch doorLockedAt s

/-- `MORE_PATTERN.search` (`--More--`, case-sensitive). -/
def MORE_PATTERN (s : String) : Option (Nat × Nat × Unit) :=
  strSearch (litCSAt "--More--") s

/-- `PRESS_ENTER_PATTERN.search`. -/
def PRESS_ENTER_PATTERN (s : String) : Option (Nat × Nat × Unit) :=
  strSearch (litCIAt "Press ENTER for next page") s

/-- `DIRECTION_BLOCK_PATTERN.search` (`You can't go that way!`). -/
def DIRECTION_BLOCK_PATTERN (s : String) : Option (Nat × Nat × Unit) :=
  strSearch (litCIAt ("You can" ++ sqs ++ "t go that way!")) s

/-- `TARGET_MISSING_PATTERN.search` (`You don't see that here\.`). -/
def TARGET_MISSING_PATTERN (s : String) : Option (Nat × Nat × Unit) :=
  strSearch (litCIAt ("You don" ++ sqs ++ "t see that here.")) s

/-- `TAKE_MISSING_PATTERN.search` (`There is no [^\n]+ here to get\.`). -/
def TAKE_MISSING_PATTERN (s : String) : Option (Nat × Nat × Unit) :=
  strSearch (midTailLineAt "There is no " " here to get.") s

/-- `STEALING_PATTERN.search`. -/
def STEALING_PATTERN (s : String) : Option (Nat × Nat × Unit) :=
  strSearch (litCIAt "That would be stealing!") s

/-- `MULTI_TARGET_PATTERN.search`. -/
def MULTI_TARGET_PATTERN (s : String) : Option (Nat × Nat × Unit) :=
  strSearch (litCIAt "You see more than one") s

/-- Greedy backtracking step of `ASK_BLANK_PATTERN`: for the candidate split
points (descending), require `[^:]+: I don't know about that\.` after the
9-character ` says in ` separator. -/
def askBlankPick (cs s : List Char) : List Nat → Option (Nat × String)
  | [] => none
  | j :: rest =>
    let after := cs.drop (j + 9)
    let p := after.span (fun c => c ≠ ':')
    if p.1.isEmpty then askBlankPick cs s rest
    else
      match eatChar ':' p.2 with
      | none => askBlankPick cs s rest
      | some r3 =>
        match eatLitCI (" I don" ++ sqs ++ "t know about that.").data r3 with
        | some r4 => some (cs.length - r4.length, String.mk (s.take j))
        | none => askBlankPick cs s rest

/-- Anchored matcher for
`(?P<npc>[A-Z][\w' -]+) says in [^:]+: I don't know about that\.`
(case-insensitive). -/
def askBlankAt (cs : List Char) : Option (Nat × String) :=
  match cs with
  | [] => none
  | c0 :: rest =>
    if isAsciiLetter c0 then
      let s := c0 :: (rest.span considerClassChar).1
      let occs := (occurrencesCI " says in ".data s 0).filter (fun j => 2 ≤ j)
      askBlankPick cs s occs.reverse
    else none

/-- `ASK_BLANK_PATTERN.search`. -/
def ASK_BLANK_PATTERN (s : String) : Option (Nat × Nat × String) :=
  strSearch askBlankAt s

/-- `REST_START_PATTERN.search`. -/
def REST_START_PATTERN (s : String) : Option (Nat × Nat × Unit) :=
  strSearch (litCIAt "You sit back, relax, and enjoy a nice rest.") s

/-- `REST_INTERRUPT_PATTERN.search`. -/
def REST_INTERRUPT_PATTERN (s : String) : Option (Nat × Nat × Unit) :=
  strSearch (litCIAt "Your actions interrupt your rest.") s

/-- Anchored matcher for `Your name\?.*Password:`: `.*` stays on the line
and is greedy, so `Password:` matches at its last position on the line. -/
def userPass4At (cs : List Char) : Option (Nat × Unit) := do
  let r1 ← eatLitCS "Your name?".data cs
  let seg := (r1.span (fun c => c ≠ '\n')).1
  let occs := occurrencesCS "Password:".data seg 0
  match occs.getLast? with
  | none => none
  | some j => pure (mlen cs r1 + j + 9, ())

/-- `USERNAME_PATTERNS`, searched in the order of the source list
(case-sensitive). -/
def USERNAME_PATTERNS : List (String → Option (Nat × Nat × Unit)) :=
  [ fun s => strSearch (litOptQAt "By what name do you wish to be known") s,
    fun s => strSearch (litCSAt "Enter your character name:") s,
    fun s => strSearch (litCSAt "Enter your name:") s,
    fun s => strSearch (litOptQAt "Your name") s,
    fun s => strSearch (litCSAt ("Please enter the name " ++ sqs ++ "new" ++ sqs ++
      " if you are new to The Two Towers.")) s ]

/-- `PASSWORD_PATTERNS`, searched in the order of the source list
(case-sensitive). -/
def PASSWORD_PATTERNS : List (String → Option (Nat × Nat × Unit)) :=
  [ fun s => strSearch (litOptQAt "What is your password") s,
    fun s => strSearch (litCSAt "Password:") s,
    fun s => strSearch (litCSAt "Enter your password:") s,
    fun s => strSearch userPass4At s ]

/-- First pattern of a list that matches the buffer, with its match
(the `for pattern in ...: if pattern.search(...)` loops of the source). -/
def firstPatternMatch (pats : List (String → Option (Nat × Nat × Unit)))
    (buf : String) : Option (Nat × Nat × Unit) :=
  match pats with
  | [] => none
  | p :: rest =>
    match p buf with
    | some m => some m
    | none => firstPatternMatch rest buf

/-! ## Effects

Externally visible actions of the embedded program.  `wake r` records a
completed `request_commands(r)` call (pending reason stored and the worker
event set); `sentCmd`/`sentBlank` record bytes written to the connection;
`displayed` records a `display.emit` line; `errLine` a stderr line. -/

/-- One observable action of the program. -/
inductive Effect where
  | displayed (category message : String)
  | sentCmd (command source : String)
  | sentBlank
  | wake (reason : String)
  | errLine (message : String)
deriving DecidableEq, Repr

/-- `TARGET_MEMORY_SECONDS = 45.0`, as a rational. -/
def TARGET_MEMORY_SECONDS : ℚ := 45

/-- `OLLAMA_MAX_RETRIES` default. -/
def OLLAMA_MAX_RETRIES : Nat := 3

/-! ## The planner state (`OllamaPlanner`) -/

/-- State of `OllamaPlanner`.  The bounded deques of the source become lists
together with their `maxlen` caps (applied by `pushCap`), and the
`threading.Event` becomes the boolean `requestEventSet`. -/
structure PlannerState where
  enabled : Bool
  maxContextChars : Nat
  maxCommands : Nat
  knowledgeText : String
  transcript : List String
  commands : List String
  manualCommands : List String
  events : List String
  issues : List String
  opportunities : List String
  pendingReason : Option String
  requestEventSet : Bool
  active : Bool
  issueCounts : List (String × Nat)
  lastHp : Option Nat
  lastEp : Option Nat
  lastGold : Option Nat
  location : Option String
  exits : Option String
  environment : Option String
  travelState : Option String
  restState : Option String
  encumbrance : Option String
  inventoryState : Option String
  locationHistory : List String
  locationStreak : Nat
  stagnationFlag : Option String
deriving DecidableEq, Repr

/-- The planner state produced by `OllamaPlanner.__init__` (with the default
`max_context_chars = 6000` and `max_commands = 3`). -/
def initPlanner (enabled : Bool) (knowledge : String) : PlannerState :=
  { enabled := enabled, maxContextChars := 6000, maxCommands := 3,
    knowledgeText := knowledge, transcript := [], commands := [],
    manualCommands := [], events := [], issues := [], opportunities := [],
    pendingReason := none, requestEventSet := false, active := false,
    issueCounts := [], lastHp := none, lastEp := none, lastGold := none,
    location := none, exits := none, environment := none, travelState := none,
    restState := none, encumbrance := none, inventoryState := none,
    locationHistory := [], locationStreak := 0, stagnationFlag := none }

/-- Total character count of the transcript buffer. -/
def transcriptTotal (t : List String) : Nat := (t.map String.length).sum

/-- The eviction loop of `_append_transcript`: pop the oldest chunk while
the total exceeds the cap. -/
def evictOldest (cap : Nat) : List String → List String
  | [] => []
  | c :: rest =>
    if transcriptTotal (c :: rest) ≤ cap then c :: rest else evictOldest cap rest

/-- `OllamaPlanner._append_transcript`. -/
def append_transcript (cap : Nat) (t : List String) (text : String) : List String :=
  evictOldest cap (t ++ [text])

/-- Apply `_append_transcript` to the planner state. -/
def PlannerState.appendT (p : PlannerState) (text : String) : PlannerState :=
  { p with transcript := append_transcript p.maxContextChars p.transcript text }

/-- `OllamaPlanner.observe_output`. -/
def observe_output (p : PlannerState) (text : String) : PlannerState :=
  if ¬(p.enabled ∧ text ≠ "") then p
  else
    let cleaned := removeCR text
    if pyStrip cleaned = "" then p
    else p.appendT cleaned

/-- `OllamaPlanner.update_vitals`. -/
def update_vitals (p : PlannerState) (hp ep : Nat) : PlannerState :=
  if ¬p.enabled then p
  else if p.lastHp = some hp ∧ p.lastEp = some ep then p
  else
    let p1 := { p with lastHp := some hp, lastEp := some ep }
    let p2 := p1.appendT ("[status] HP:" ++ toString hp ++ " EP:" ++ toString ep ++ "\n")
    let p3 :=
      if hp ≤ 20 then
        { p2 with issues := pushCap 20 p2.issues "Health is critically low; rest or heal" }
      else p2
    if ep ≤ 15 then
      { p3 with issues := pushCap 20 p3.issues "Energy is running low; consider resting" }
    else p3

/-- `OllamaPlanner.update_gold`. -/
def update_gold (p : PlannerState) (amount : Nat) : PlannerState :=
  if ¬p.enabled then p
  else if p.lastGold = some amount then p
  else
    let p1 := { p with lastGold := some amount }
    let p2 := p1.appendT ("[status] Gold:" ++ toString amount ++ "\n")
    if amount = 0 then
      { p2 with issues := pushCap 20 p2.issues "No gold available for purchases" }
    else p2

/-- `OllamaPlanner.update_location`. -/
def update_location (p : PlannerState) (location : String) : PlannerState :=
  if ¬p.enabled then p
  else
    let cleaned := pyStrip location
    if cleaned = "" then p
    else
      let p1 :=
        if p.location = some cleaned then
          let pa := { p with locationStreak := p.locationStreak + 1 }
          if pa.locationStreak ≤ 3 then
            pa.appendT ("[location-repeat] " ++ cleaned ++ " x" ++
              toString pa.locationStreak ++ "\n")
          else pa
        else
          let pb := { p with location := some cleaned, locationStreak := 1,
                             stagnationFlag := none }
          pb.appendT ("[location] " ++ cleaned ++ "\n")
      { p1 with locationHistory := pushCap 16 p1.locationHistory cleaned }

/-- `OllamaPlanner.update_exits`. -/
def update_exits (p : PlannerState) (exits : String) : PlannerState :=
  if ¬p.enabled then p
  else
    let cleaned := pyStrip exits
    if cleaned = "" then p
    else if p.exits = some cleaned then p
    else ({ p with exits := some cleaned }).appendT ("[exits] " ++ cleaned ++ "\n")

/-- `OllamaPlanner.update_environment`. -/
def update_environment (p : PlannerState) (description : String) : PlannerState :=
  if ¬p.enabled then p
  else
    let cleaned := pyStrip description
    if cleaned = "" then p
    else if p.environment = some cleaned then p
    else ({ p with environment := some cleaned }).appendT
      ("[environment] " ++ cleaned ++ "\n")

/-- `OllamaPlanner.update_travel_state`. -/
def update_travel_state (p : PlannerState) (state : String) : PlannerState :=
  if ¬p.enabled then p
  else
    let cleaned := pyStrip state
    if cleaned = "" then p
    else if p.travelState = some cleaned then p
    else ({ p with travelState := some cleaned }).appendT ("[travel] " ++ cleaned ++ "\n")

/-- `OllamaPlanner.update_rest_state`. -/
def update_rest_state (p : PlannerState) (state : String) : PlannerState :=
  if ¬p.enabled then p
  else
    let cleaned := pyStrip state
    if cleaned = "" then p
    else if p.restState = some cleaned then p
    else ({ p with restState := some cleaned }).appendT ("[rest] " ++ cleaned ++ "\n")

/-- `OllamaPlanner.update_encumbrance`. -/
def update_encumbrance (p : PlannerState) (state : String) : PlannerState :=
  if ¬p.enabled then p
  else
    let cleaned := pyStrip state
    if cleaned = "" then p
    else
      let normalized := lcStr cleaned
      if p.encumbrance = some normalized then p
      else ({ p with encumbrance := some normalized }).appendT
        ("[encumbrance] " ++ normalized ++ "\n")

/-- `OllamaPlanner.update_inventory_state`. -/
def update_inventory_state (p : PlannerState) (state : String) : PlannerState :=
  if ¬p.enabled then p
  else
    let cleaned := pyStrip state
    if cleaned = "" then p
    else
      let normalized := lcStr cleaned
      if p.inventoryState = some normalized then p
      else ({ p with inventoryState := some normalized }).appendT
        ("[inventory] " ++ normalized ++ "\n")

/-- `OllamaPlanner.track_stagnation`. -/
def track_stagnation (p : PlannerState) (location : String) (streak : Nat) : PlannerState :=
  if ¬p.enabled then p
  else if streak < 1 then p
  else
    let cleaned := pyStrip location
    if cleaned = "" then p
    else if 4 ≤ streak ∧ p.stagnationFlag ≠ some cleaned then
      { p with stagnationFlag := some cleaned,
               issues := pushCap 20 p.issues ("Still at " ++ cleaned ++ " after " ++
                 toString streak ++ " prompts; explore new actions") }
    else if streak ≤ 1 ∧ p.stagnationFlag = some cleaned then
      { p with stagnationFlag := none }
    else p

/-- Count lookup in the `_issue_counts` dictionary. -/
def lookupCount (m : List (String × Nat)) (k : String) : Nat :=
  match m.find? (fun kv => kv.1 == k) with
  | some kv => kv.2
  | none => 0

/-- Store a count in the `_issue_counts` dictionary. -/
def setCount (m : List (String × Nat)) (k : String) (v : Nat) : List (String × Nat) :=
  if (m.find? (fun kv => kv.1 == k)).isSome then
    m.map (fun kv => if kv.1 == k then (k, v) else kv)
  else m ++ [(k, v)]

/-- `OllamaPlanner.record_issue`. -/
def record_issue (p : PlannerState) (issue : String) : PlannerState :=
  if ¬p.enabled then p
  else
    let cleaned := pyStrip issue
    if cleaned = "" then p
    else
      let count := lookupCount p.issueCounts cleaned + 1
      let p1 := { p with issueCounts := setCount p.issueCounts cleaned count }
      if count = 1 then { p1 with issues := pushCap 20 p1.issues cleaned }
      else if count = 3 ∨ count = 5 then
        let line := cleaned ++ " (x" ++ toString count ++ ")"
        { p1 with issues := pushCap 20 p1.issues line }
      else p1

/-- `OllamaPlanner.record_opportunity`. -/
def record_opportunity (p : PlannerState) (message : String) : PlannerState :=
  if ¬p.enabled then p
  else
    let cleaned := pyStrip message
    if cleaned = "" then p
    else ({ p with opportunities := pushCap 12 p.opportunities cleaned }).appendT
      ("[opportunity] " ++ cleaned ++ "\n")

/-- `OllamaPlanner.record_command`. -/
def record_command (p : PlannerState) (command source : String) : PlannerState :=
  if ¬p.enabled then p
  else
    let trimmed := pyStrip command
    if trimmed = "" then p
    else
      let p1 := { p with commands := pushCap 40 p.commands (source ++ ": " ++ trimmed) }
      let p2 :=
        if source = "input" then
          { p1 with manualCommands := pushCap 20 p1.manualCommands trimmed }
        else p1
      p2.appendT (">>> " ++ trimmed ++ "\n")

/-- `OllamaPlanner.note_event`. -/
def note_event (p : PlannerState) (message : String) : PlannerState :=
  if ¬p.enabled then p
  else
    let cleaned := pyStrip message
    if cleaned = "" then p
    else ({ p with events := pushCap 20 p.events cleaned }).appendT
      ("[event] " ++ cleaned ++ "\n")

/-- `OllamaPlanner.request_commands`: record the pending reason (replacing
any previous one) and set the worker wake event, provided the planner is
enabled and active. -/
def request_commands (p : PlannerState) (reason : String) : PlannerState × List Effect :=
  if ¬p.enabled then (p, [])
  else if ¬p.active then (p, [])
  else ({ p with pendingReason := some reason, requestEventSet := true },
        [Effect.wake reason])

/-- `OllamaPlanner.activate`. -/
def activate (p : PlannerState) : PlannerState × List Effect :=
  if ¬p.enabled then (p, [])
  else request_commands { p with active := true } "session start"

/-- `OllamaPlanner.deactivate`. -/
def deactivate (p : PlannerState) : PlannerState := { p with active := false }

/-- `OllamaPlanner.reset`. -/
def plannerReset (p : PlannerState) : PlannerState :=
  { p with transcript := [], commands := [], manualCommands := [], events := [],
           issues := [], opportunities := [], pendingReason := none,
           issueCounts := [], lastHp := none, lastEp := none, lastGold := none,
           location := none, exits := none, environment := none,
           travelState := none, restState := none, encumbrance := none,
           inventoryState := none, locationHistory := [], locationStreak := 0,
           stagnationFlag := none, requestEventSet := false }

/-- Python `sep.join(xs)`. -/
def joinSep (sep : String) : List String → String
  | [] => ""
  | [x] => x
  | x :: y :: rest => x ++ sep ++ joinSep sep (y :: rest)

/-- The order-preserving deduplication loop of `_build_prompt` over the
location history. -/
def orderedDedupAux : List String → List String → List String
  | [], acc => acc
  | e :: rest, acc =>
    if e ∈ acc then orderedDedupAux rest acc else orderedDedupAux rest (acc ++ [e])

/-- Order-preserving deduplication. -/
def orderedDedup (l : List String) : List String := orderedDedupAux l []

/-- An optional status bit `Tag: value`, included only for a truthy value. -/
def statusBit (tag : String) : Option String → List String
  | none => []
  | some v => if v = "" then [] else [tag ++ v]

/-- `OllamaPlanner._build_prompt`: returns the prompt payload (or `None`)
together with the planner state after the call; the pending reason is
consumed exactly when the active/empty-transcript early exits are passed. -/
def build_prompt (p : PlannerState) : Option String × PlannerState :=
  if ¬p.active then (none, p)
  else
    let transcript := String.join p.transcript
    if pyStrip transcript = "" then (none, p)
    else
      let recent_commands := lastN 10 p.commands
      let manual := lastN 6 p.manualCommands
      let events := lastN 8 p.events
      let issues := lastN 8 p.issues
      let opportunities := lastN 6 p.opportunities
      let reason := p.pendingReason.getD ""
      let p' := { p with pendingReason := none }
      let ordered := orderedDedup p.locationHistory
      let summary_lines : List String :=
        (if recent_commands ≠ [] then
          ["Recent commands: " ++ joinSep ", " recent_commands] else []) ++
        (if manual ≠ [] then
          ["Player-entered commands: " ++ joinSep ", " manual] else []) ++
        (if events ≠ [] then ["Notable events: " ++ joinSep "; " events] else []) ++
        (if opportunities ≠ [] then
          ["Opportunities: " ++ joinSep "; " opportunities] else []) ++
        (if ordered ≠ [] then
          ["Recent locations: " ++ joinSep " -> " (lastN 5 ordered)] else []) ++
        (let status_bits : List String :=
          (match p.lastHp, p.lastEp with
           | some hp, some ep => ["HP " ++ toString hp ++ " / EP " ++ toString ep]
           | _, _ => []) ++
          (match p.lastGold with
           | some g => ["Gold " ++ toString g]
           | none => []) ++
          statusBit "Location: " p.location ++
          statusBit "Exits: " p.exits ++
          statusBit "Environment: " p.environment ++
          statusBit "Travel: " p.travelState ++
          statusBit "Rest: " p.restState ++
          statusBit "Encumbrance: " p.encumbrance ++
          statusBit "Inventory: " p.inventoryState
         if status_bits ≠ [] then ["Status: " ++ joinSep "; " status_bits] else []) ++
        (if issues ≠ [] then ["Recent issues: " ++ joinSep "; " issues] else []) ++
        (if reason ≠ "" then ["Trigger: " ++ reason] else [])
      let summary := joinSep "\n" summary_lines
      let prompt_parts : List String :=
        [ "You are remotely controlling a character in The Two Towers (t2tmud.org) via telnet.",
          "Only output JSON with a " ++ sqs ++ "commands" ++ sqs ++
            " array (max three strings) and optional " ++ sqs ++ "comment" ++ sqs ++ ".",
          "Do not include prose outside JSON.",
          "Game reference:",
          p.knowledgeText ] ++
        (if summary ≠ "" then ["Context summary:\n" ++ summary] else []) ++
        [ "Latest transcript:\n```\n" ++ transcript ++ "\n```",
          "Remember: respond with JSON only." ]
      (some (joinSep "\n\n" prompt_parts), p')

/-! ## JSON (`json.loads`)

Executable model of Python `json.loads` on the JSON subset the program
exchanges with the oracle: objects, arrays, strings (with the standard
escapes, including `\uXXXX` outside surrogate pairs), integers, booleans and
null.  Fractional and exponent number forms are not modelled (the parser
fails on them), which is conservative for every payload considered here.
Duplicate object keys keep the last occurrence, as Python dicts do. -/

/-- JSON values. -/
inductive JValue where
  | jnull
  | jbool (b : Bool)
  | jnum (n : Int)
  | jstr (s : String)
  | jarr (elems : List JValue)
  | jobj (fields : List (String × JValue))
deriving Repr

/-- JSON whitespace. -/
def skipJWs (cs : List Char) : List Char :=
  cs.dropWhile (fun c => c = ' ' ∨ c = '\t' ∨ c = '\n' ∨ c = '\r')

/-- Hexadecimal digit value. -/
def hexVal (c : Char) : Option Nat :=
  if c.isDigit then some (c.toNat - 48)
  else if 97 ≤ c.toNat ∧ c.toNat ≤ 102 then some (c.toNat - 87)
  else if 65 ≤ c.toNat ∧ c.toNat ≤ 70 then some (c.toNat - 55)
  else none

/-- Body of a JSON string after the opening quote; `acc` holds the decoded
characters in reverse. -/
def parseJStringAux : List Char → List Char → Option (String × List Char)
  | _, [] => none
  | acc, '"' :: rest => some (String.mk acc.reverse, rest)
  | acc, '\\' :: rest =>
    (match rest with
     | [] => none
     | e :: rest2 =>
       if e = '"' then parseJStringAux ('"' :: acc) rest2
       else if e = '\\' then parseJStringAux ('\\' :: acc) rest2
       else if e = '/' then parseJStringAux ('/' :: acc) rest2
       else if e = 'b' then parseJStringAux (Char.ofNat 8 :: acc) rest2
       else if e = 'f' then parseJStringAux (Char.ofNat 12 :: acc) rest2
       else if e = 'n' then parseJStringAux ('\n' :: acc) rest2
       else if e = 'r' then parseJStringAux ('\r' :: acc) rest2
       else if e = 't' then parseJStringAux ('\t' :: acc) rest2
       else if e = 'u' then
         match rest2 with
         | h1 :: h2 :: h3 :: h4 :: rest3 =>
           match hexVal h1, hexVal h2, hexVal h3, hexVal h4 with
           | some a, some b, some c, some d =>
             parseJStringAux (Char.ofNat (((a * 16 + b) * 16 + c) * 16 + d) :: acc) rest3
           | _, _, _, _ => none
         | _ => none
       else none)
  | acc, c :: rest => parseJStringAux (c :: acc) rest

/-- Parse a JSON string body (opening quote already consumed). -/
def parseJString (cs : List Char) : Option (String × List Char) :=
  parseJStringAux [] cs

/-- Parse a JSON integer (fractional and exponent forms are rejected). -/
def parseJNum (cs : List Char) : Option (JValue × List Char) :=
  let pr : Bool × List Char :=
    match cs with
    | '-' :: r => (true, r)
    | _ => (false, cs)
  match eatDigitsPlus pr.2 with
  | none => none
  | some (ds, r2) =>
    let bad : Bool :=
      match r2 with
      | c :: _ => c = '.' ∨ c = 'e' ∨ c = 'E'
      | [] => false
    if bad then none
    else
      let n : Int := natOfDigits ds
      some (JValue.jnum (if pr.1 then -n else n), r2)

mutual

/-- Parse one JSON value; the fuel bounds the number of parse steps and is
instantiated with the text length plus one, which every actual parse fits
under (each step consumes at least one character). -/
def parseJValue : Nat → List Char → Option (JValue × List Char)
  | 0, _ => none
  | fuel + 1, cs0 =>
    let cs := skipJWs cs0
    match eatChar '"' cs with
    | some r => (parseJString r).map (fun pr => (JValue.jstr pr.1, pr.2))
    | none =>
      match eatChar lbrace cs with
      | some r =>
        (match eatChar rbrace (skipJWs r) with
         | some r2 => some (JValue.jobj [], r2)
         | none => parseJFields fuel r [])
      | none =>
        match eatChar '[' cs with
        | some r =>
          (match eatChar ']' (skipJWs r) with
           | some r2 => some (JValue.jarr [], r2)
           | none => parseJElems fuel r [])
        | none =>
          match eatLitCS "true".data cs with
          | some r => some (JValue.jbool true, r)
          | none =>
            match eatLitCS "false".data cs with
            | some r => some (JValue.jbool false, r)
            | none =>
              match eatLitCS "null".data cs with
              | some r => some (JValue.jnull, r)
              | none => parseJNum cs

/-- Parse the remaining elements of a JSON array. -/
def parseJElems : Nat → List Char → List JValue → Option (JValue × List Char)
  | 0, _, _ => none
  | fuel + 1, cs, acc =>
    match parseJValue fuel cs with
    | none => none
    | some (v, r) =>
      let r2 := skipJWs r
      match eatChar ',' r2 with
      | some r3 => parseJElems fuel r3 (acc ++ [v])
      | none =>
        match eatChar ']' r2 with
        | some r3 => some (JValue.jarr (acc ++ [v]), r3)
        | none => none

/-- Parse the remaining fields of a JSON object. -/
def parseJFields : Nat → List Char → List (String × JValue) →
    Option (JValue × List Char)
  | 0, _, _ => none
  | fuel + 1, cs, acc =>
    match eatChar '"' (skipJWs cs) with
    | none => none
    | some r =>
      match parseJString r with
      | none => none
      | some (k, r2) =>
        match eatChar ':' (skipJWs r2) with
        | none => none
        | some r3 =>
          match parseJValue fuel r3 with
          | none => none
          | some (v, r4) =>
            let r5 := skipJWs r4
            match eatChar ',' r5 with
            | some r6 => parseJFields fuel r6 (acc ++ [(k, v)])
            | none =>
              match eatChar rbrace r5 with
              | some r6 => some (JValue.jobj (acc ++ [(k, v)]), r6)
              | none => none

end

/-- Python `json.loads` (on the modelled subset): a full parse of the text
with only trailing whitespace allowed. -/
def json_loads (s : String) : Option JValue :=
  match parseJValue (s.length + 1) s.data with
  | some (v, rest) => if (skipJWs rest).isEmpty then some v else none
  | none => none

/-! ## `_extract_json_fragment` and `_extract_commands` -/

/-- The scanning loop of `_extract_json_fragment`: index, bracket depth,
start of the outermost object, in-string and escape flags. -/
def ejfLoop : List Char → Nat → Nat → Option Nat → Bool → Bool → Option (Nat × Nat)
  | [], _, _, _, _, _ => none
  | ch :: rest, idx, depth, start, inString, escape =>
    if inString then
      if escape then ejfLoop rest (idx + 1) depth start true false
      else if ch = '\\' then ejfLoop rest (idx + 1) depth start true true
      else if ch = '"' then ejfLoop rest (idx + 1) depth start false false
      else ejfLoop rest (idx + 1) depth start true false
    else if ch = '"' then ejfLoop rest (idx + 1) depth start true false
    else if ch = lbrace then
      let st := if depth = 0 then some idx else start
      ejfLoop rest (idx + 1) (depth + 1) st false false
    else if ch = rbrace then
      if depth = 0 then ejfLoop rest (idx + 1) depth start false false
      else if depth = 1 ∧ start.isSome then start.map (fun st => (st, idx + 1))
      else ejfLoop rest (idx + 1) (depth - 1) start false false
    else ejfLoop rest (idx + 1) depth start false false

/-- `_extract_json_fragment`. -/
def extract_json_fragment (text : String) : Option String :=
  (ejfLoop text.data 0 0 none false false).map (fun pr => strSlice text pr.1 pr.2)

/-- Last-occurrence field lookup, the dict semantics of Python `json`. -/
def jLookup (fs : List (String × JValue)) (k : String) : Option JValue :=
  (fs.reverse.find? (fun kv => kv.1 == k)).map (fun kv => kv.2)

/-- `parsed = json.loads(payload)` with the `_extract_json_fragment`
fallback of `_extract_commands`. -/
def parsedOf (payload : String) : Option JValue :=
  match json_loads payload with
  | some v => some v
  | none =>
    match extract_json_fragment payload with
    | some frag => json_loads frag
    | none => none

/-- One entry of the structured-commands loop: a string entry is stripped
and kept when nonempty, any other entry is skipped. -/
def structuredAcc (acc : List String) : JValue → List String
  | JValue.jstr s =>
    let c := pyStrip s
    if c = "" then acc else acc ++ [c]
  | _ => acc

/-- The structured-commands loop of `_extract_commands`: string entries are
stripped and kept when nonempty; after every entry the length cap is
checked. -/
def collectStructured (maxCmds : Nat) : List JValue → List String → List String
  | [], acc => acc
  | e :: rest, acc =>
    let acc2 := structuredAcc acc e
    if maxCmds ≤ acc2.length then acc2 else collectStructured maxCmds rest acc2

/-- Bracket characters filtered by the line fallback. -/
def isBracketChar (c : Char) : Bool :=
  c = lbrace ∨ c = rbrace ∨ c = '[' ∨ c = ']'

/-- Whether the first character satisfies `p`. -/
def headSat (p : Char → Bool) (s : String) : Bool :=
  match s.data.head? with
  | some c => p c
  | none => false

/-- Whether the last character satisfies `p`. -/
def lastSat (p : Char → Bool) (s : String) : Bool :=
  match s.data.getLast? with
  | some c => p c
  | none => false

/-- The permissive line-based fallback of `_extract_commands`. -/
def fallbackLines (maxCmds : Nat) : List String → List String → List String
  | [], acc => acc
  | line :: rest, acc =>
    let raw := pyStrip line
    if raw = "" then fallbackLines maxCmds rest acc
    else
      let stripped := pyStrip (pyStripChar '#' raw)
      if stripped = "" then fallbackLines maxCmds rest acc
      else if stripped = String.mk [lbrace] ∨ stripped = String.mk [rbrace] ∨
          stripped = "[" ∨ stripped = "]" then
        fallbackLines maxCmds rest acc
      else if headSat isBracketChar stripped ∨ lastSat isBracketChar stripped then
        fallbackLines maxCmds rest acc
      else if stripped.data.contains ':' then fallbackLines maxCmds rest acc
      else if headSat (fun c => c = '"') stripped ∧ lastSat (fun c => c = '"') stripped then
        fallbackLines maxCmds rest acc
      else
        let acc2 := acc ++ [stripped]
        if maxCmds ≤ acc2.length then acc2 else fallbackLines maxCmds rest acc2

/-- `OllamaPlanner._extract_commands` with explicit recursion fuel: the one
recursive call unwraps the `response` string field, which is strictly
shorter than the payload that carried it, so fuel `length + 1` covers every
actual run. -/
def extractCommandsFuel (maxCmds : Nat) : Nat → Option String → List String
  | _, none => []
  | 0, some _ => []
  | fuel + 1, some payload0 =>
    let payload := pyStrip payload0
    if payload = "" then []
    else
      match parsedOf payload with
      | some (JValue.jobj fields) =>
        if (jLookup fields "response").isSome ∧ (jLookup fields "commands").isNone then
          match jLookup fields "response" with
          | some (JValue.jstr s) => extractCommandsFuel maxCmds fuel (some s)
          | _ => []
        else
          (match jLookup fields "commands" with
           | some (JValue.jarr entries) =>
             let result := collectStructured maxCmds entries []
             if result ≠ [] then result
             else fallbackLines maxCmds (pySplitlines payload) []
           | _ => fallbackLines maxCmds (pySplitlines payload) [])
      | _ => fallbackLines maxCmds (pySplitlines payload) []

/-- `OllamaPlanner._extract_commands`. -/
def extract_commands (maxCmds : Nat) (payload : Option String) : List String :=
  match payload with
  | none => []
  | some s => extractCommandsFuel maxCmds (s.length + 1) (some s)

/-! ## `_query_ollama` -/

/-- Outcome of one HTTP attempt against the oracle, supplied as an input to
the model (the network environment). -/
inductive AttemptResult where
  | success (body : String)
  | httpError (status : Nat)
  | netTimeout
  | transportError (msg : String)
deriving DecidableEq, Repr

/-- Whether an attempt failed. -/
def AttemptResult.failed : AttemptResult → Bool
  | .success _ => false
  | _ => true

/-- The `last_error` string an attempt leaves behind, as formatted by the
source (`HTTP {status}` for a non-200 response, `timeout` for a socket
timeout, `str(exc)` otherwise). -/
def attemptError : AttemptResult → Option String
  | .success _ => none
  | .httpError st => some ("HTTP " ++ toString st)
  | .netTimeout => some "timeout"
  | .transportError m => some m

/-- The retry loop of `_query_ollama` over the attempt outcomes (the source
runs `range(1, OLLAMA_MAX_RETRIES + 2)` attempts): first success returns its
body; otherwise the last error is reported. -/
def queryLoop : List AttemptResult → Option String → Option String × Option String
  | [], lastError => (none, lastError)
  | a :: rest, lastError =>
    match a with
    | AttemptResult.success body => (some body, lastError)
    | _ => queryLoop rest (attemptError a)

/-- `OllamaPlanner._query_ollama`: a payload on success, otherwise `None`
plus a single stderr line when any error was recorded. -/
def query_ollama (enabled : Bool) (attempts : List AttemptResult) :
    Option String × List Effect :=
  if ¬enabled then (none, [])
  else
    match queryLoop attempts none with
    | (some body, _) => (some body, [])
    | (none, some e) => (none, [Effect.errLine ("[ollama] request failed: " ++ e)])
    | (none, none) => (none, [])

/-! ## The telnet session (`TelnetSession`) -/

/-- `CharacterProfile`. -/
structure CharacterProfile where
  username : String
  password : String
  label : String
deriving DecidableEq, Repr

/-- State of `TelnetSession`.  The connection handle becomes the boolean
`connection` (present or gone); the `time.monotonic()` clock of the enemy
dedup map is embedded as rationals. -/
structure SessionState where
  profile : Option CharacterProfile
  connection : Bool
  buffer : String
  usernameSent : Bool
  passwordSent : Bool
  travelActive : Bool
  loggedIn : Bool
  recentTargets : List (String × ℚ)
  lastGoldReport : Option Nat
  lastCommandSent : String
  searchFailures : Nat
  goldFailures : Nat
  blankResponseStreak : Nat
  lastPromptStatus : Option (Nat × Nat)
  lastLocationSummary : Option String
  lastExitsSummary : Option String
  lastEnvironmentSummary : Option String
  repeatLocationCount : Nat
  stagnationNoticeLocation : Option String
  planner : PlannerState
deriving DecidableEq, Repr

/-- Apply a pure planner method (the `if self._planner:` guard of the source
is always taken: `run_client` attaches the planner before connecting). -/
def withPlanner (s : SessionState) (f : PlannerState → PlannerState) : SessionState :=
  { s with planner := f s.planner }

/-- Apply a planner method that produces effects. -/
def withPlannerE (s : SessionState) (f : PlannerState → PlannerState × List Effect) :
    SessionState × List Effect :=
  let r := f s.planner
  ({ s with planner := r.1 }, r.2)

/-- `_remove_match` applied to the session buffer. -/
def removeAt (s : SessionState) (st en : Nat) : SessionState :=
  { s with buffer := removeSpan s.buffer st en }

/-- `_consume` applied to the session buffer (cut at the match end). -/
def consumeAt (s : SessionState) (en : Nat) : SessionState :=
  { s with buffer := strDrop s.buffer en }

/-- Python `needle in hay` on strings. -/
def containsSub (needle hay : String) : Bool :=
  ¬(occurrencesCS needle.data hay.data 0).isEmpty

/-- ASCII uppercase conversion. -/
def upChar (c : Char) : Char :=
  if 96 < c.toNat ∧ c.toNat < 123 then Char.ofNat (c.toNat - 32) else c

/-- Helper for `pyTitle`: the flag records whether the previous character
was a letter. -/
def pyTitleAux : Bool → List Char → List Char
  | _, [] => []
  | prevAlpha, c :: rest =>
    if c.isAlpha then (if prevAlpha then lcChar c else upChar c) :: pyTitleAux true rest
    else c :: pyTitleAux false rest

/-- Python `str.title()` on ASCII text. -/
def pyTitle (s : String) : String := String.mk (pyTitleAux false s.data)

/-- `TelnetSession.send_command`: with the connection gone, emit one error
line and do nothing else; otherwise write the command plus newline, emit the
echo line for its source, remember it and mirror it into the planner. -/
def send_command (command source : String) (s : SessionState) :
    SessionState × List Effect :=
  if ¬s.connection then
    (s, [Effect.displayed "error" "Cannot send command while disconnected"])
  else
    let disp : Effect :=
      if source = "ollama" then Effect.displayed "ollama" (">>> " ++ command)
      else if source = "input" then Effect.displayed "input" (">>> " ++ command)
      else Effect.displayed "event" (">>> " ++ command)
    let s1 := { s with lastCommandSent := pyStrip command }
    let s2 := withPlanner s1 (fun p => record_command p command source)
    (s2, [Effect.sentCmd command source, disp])

/-- `TelnetSession.send_blank`: silently do nothing with the connection
gone; otherwise write a bare newline. -/
def send_blank (s : SessionState) : SessionState × List Effect :=
  if ¬s.connection then (s, [])
  else
    let s1 := { s with lastCommandSent := "" }
    let s2 := withPlanner s1 (fun p => record_command p "" "system")
    (s2, [Effect.sentBlank, Effect.displayed "event" ">>> (newline)"])

/-- Result of one detector: next state, effects, and whether
`_process_buffer` returned. -/
abbrev StageResult := SessionState × List Effect × Bool

/-- Sequence a detector with the rest of the cascade. -/
def andThenS (r : StageResult) (next : SessionState → SessionState × List Effect) :
    SessionState × List Effect :=
  match r with
  | (s, es, true) => (s, es)
  | (s, es, false) =>
    let n := next s
    (n.1, es ++ n.2)

/-- Username detector (`_process_buffer`, first loop). -/
def stageUsername (prof : CharacterProfile) (s : SessionState) : StageResult :=
  if s.usernameSent then (s, [], false)
  else
    match firstPatternMatch USERNAME_PATTERNS s.buffer with
    | none => (s, [], false)
    | some (_, en, _) =>
      let r := send_command prof.username "system" s
      (consumeAt { r.1 with usernameSent := true } en, r.2, true)

/-- Password detector (`_process_buffer`, second loop): when no username
prompt was handled yet, the username is sent first — without marking
`usernameSent`. -/
def stagePassword (prof : CharacterProfile) (s : SessionState) : StageResult :=
  if s.passwordSent then (s, [], false)
  else
    match firstPatternMatch PASSWORD_PATTERNS s.buffer with
    | none => (s, [], false)
    | some (_, en, _) =>
      let r1 := if ¬s.usernameSent then send_command prof.username "system" s else (s, [])
      let r2 := send_command prof.password "system" r1.1
      (consumeAt { r2.1 with passwordSent := true } en, r1.2 ++ r2.2, true)

/-- Vitals detector (`PROMPT_STATUS_PATTERN` block): update the planner
vitals, the last prompt status with its low-HP/EP warnings, and the rest
state.  The match is not consumed. -/
def stageStatus (s : SessionState) : StageResult :=
  match PROMPT_STATUS_PATTERN s.buffer with
  | none => (s, [], false)
  | some (_, _, hp, ep) =>
    let s1 := withPlanner s (fun p => update_vitals p hp ep)
    let r2 :=
      if some (hp, ep) ≠ s1.lastPromptStatus then
        let s2 := { s1 with lastPromptStatus := some (hp, ep) }
        let r3 :=
          if hp ≤ 20 then
            let s3 := withPlanner s2 (fun p =>
              record_issue (note_event p "HP critically low") "HP critically low")
            (s3, [Effect.displayed "event" "Health is low; rest or seek healing"])
          else (s2, ([] : List Effect))
        if ep ≤ 15 then
          let s4 := withPlanner r3.1 (fun p =>
            record_issue (note_event p "EP low") "EP reserves low")
          (s4, r3.2 ++ [Effect.displayed "event" "Energy is low; consider resting"])
        else r3
      else (s1, [])
    (withPlanner r2.1 (fun p => update_rest_state p "awake"), r2.2, false)

/-- `TRAVELTO_START_PATTERN` detector. -/
def stageTravelStart (s : SessionState) : StageResult :=
  match TRAVELTO_START_PATTERN s.buffer with
  | none => (s, [], false)
  | some (_, en, _) =>
    let s1 := withPlanner { s with travelActive := true } (fun p =>
      update_travel_state (note_event p "Travelto auto-travel engaged") "auto-travel engaged")
    (consumeAt s1 en,
     [Effect.displayed "event" "Travelto route engaged; awaiting arrival"], true)

/-- `TRAVELTO_RESUME_PATTERN` detector. -/
def stageTravelResume (s : SessionState) : StageResult :=
  match TRAVELTO_RESUME_PATTERN s.buffer with
  | none => (s, [], false)
  | some (_, en, _) =>
    let s1 := withPlanner { s with travelActive := true } (fun p =>
      update_travel_state (note_event p "Travelto route resumed") "auto-travel resumed")
    (consumeAt s1 en, [Effect.displayed "event" "Travelto route resumed"], true)

/-- `re.sub(pattern, "", buffer)` for the travel-end patterns. -/
def subAllSpans {γ : Type} (m : List Char → Option (Nat × γ)) (b : String) : String :=
  removeSpans b ((strSearchAll m b).map (fun r => (r.1, r.2.1)))

/-- `TRAVELTO_ABORT_PATTERN` / `TRAVELTO_COMPLETE_PATTERN` detector. -/
def stageTravelEnd (s : SessionState) : StageResult :=
  if (TRAVELTO_ABORT_PATTERN s.buffer).isSome ∨
      (TRAVELTO_COMPLETE_PATTERN s.buffer).isSome then
    let s1 := withPlanner { s with travelActive := false } (fun p =>
      update_travel_state (note_event p "Travelto route ended") "idle")
    let r2 := withPlannerE s1 (fun p => request_commands p "travelto ended")
    let b1 := subAllSpans (traveltoAt ["aborted"]) r2.1.buffer
    let b2 := subAllSpans (traveltoAt ["Journey complete", "arrived"]) b1
    ({ r2.1 with buffer := b2 },
     [Effect.displayed "event" "Travelto route ended"] ++ r2.2, true)
  else (s, [], false)

/-- The location-name extraction of `_process_buffer`: `LOCATION_AT_PATTERN`
first, then the `ROOM_NAME_PATTERNS` in order; the winning match is
removed. -/
def roomNameLoop : List (String → Option (Nat × Nat × String)) → SessionState →
    Option String × SessionState
  | [], s => (none, s)
  | pat :: rest, s =>
    match pat s.buffer with
    | some (st, en, room) => (some (pyStrip room), removeAt s st en)
    | none => roomNameLoop rest s

/-- Location detector (no return). -/
def stageLocation (s : SessionState) : StageResult :=
  let step :=
    match LOCATION_AT_PATTERN s.buffer with
    | some (st, en, loc) => (some (pyStrip loc), removeAt s st en)
    | none => roomNameLoop ROOM_NAME_PATTERNS s
  match step with
  | (none, s1) => (s1, [], false)
  | (some name, s1) =>
    if name = "" then (s1, [], false)
    else
      let r2 :=
        if some name = s1.lastLocationSummary then
          ({ s1 with repeatLocationCount := s1.repeatLocationCount + 1 },
           ([] : List Effect))
        else
          let s2 :=
            { s1 with
              lastLocationSummary := some name
              searchFailures := 0
              blankResponseStreak := 0
              repeatLocationCount := 1
              stagnationNoticeLocation := none }
          (withPlanner s2 (fun p => note_event p ("Now at " ++ name)),
           [Effect.displayed "event" ("Location update: " ++ name)])
      let s4 := withPlanner r2.1 (fun p =>
        track_stagnation (update_location p name) name r2.1.repeatLocationCount)
      let r6 :=
        if 4 ≤ s4.repeatLocationCount ∧ s4.stagnationNoticeLocation ≠ some name then
          let s6 := withPlanner { s4 with stagnationNoticeLocation := some name }
            (fun p => record_issue p ("Still in " ++ name ++ " after several prompts"))
          let r8 := withPlannerE s6 (fun p => request_commands p "stuck in location")
          (r8.1,
           [Effect.displayed "event"
             ("Still in " ++ name ++ "; explore new exits or objectives")] ++ r8.2)
        else (s4, ([] : List Effect))
      (r6.1, r2.2 ++ r6.2, false)

/-- Exits detector (no return). -/
def stageExits (s : SessionState) : StageResult :=
  let step :=
    match EXITS_PATTERN s.buffer with
    | some (st, en, ex) => (some (pyStrip ex), removeAt s st en)
    | none =>
      match ALT_EXITS_PATTERN s.buffer with
      | some (st, en, ex) => (some (pyStrip ex), removeAt s st en)
      | none =>
        match STANDARD_EXITS_PATTERN s.buffer with
        | some (st, en, block) =>
          (some (joinSep ", " (exitOptionsOfBlock block)), removeAt s st en)
        | none => (none, s)
  match step with
  | (none, s1) => (s1, [], false)
  | (some summary, s1) =>
    if summary ≠ "" ∧ some summary ≠ s1.lastExitsSummary then
      let s2 := withPlanner { s1 with lastExitsSummary := some summary }
        (fun p => update_exits p summary)
      (s2, [Effect.displayed "event" ("Obvious exits: " ++ summary)], false)
    else (s1, [], false)

/-- Environment detector (no return). -/
def stageEnvironment (s : SessionState) : StageResult :=
  let r1 :=
    match SKY_PATTERN s.buffer with
    | some (st, en, sky) => (["Sky " ++ pyStrip sky], removeAt s st en)
    | none => (([] : List String), s)
  let r2 :=
    match TIME_OF_DAY_PATTERN r1.2.buffer with
    | some (st, en, d) => (r1.1 ++ ["Sun " ++ pyStrip d], removeAt r1.2 st en)
    | none => r1
  match r2 with
  | (parts, s2) =>
    if parts ≠ [] then
      let summary := joinSep "; " parts
      if some summary ≠ s2.lastEnvironmentSummary then
        let s3 := withPlanner { s2 with lastEnvironmentSummary := some summary }
          (fun p => update_environment p summary)
        (s3, [Effect.displayed "event" ("Environment update: " ++ summary)], false)
      else (s2, [], false)
    else (s2, [], false)

/-- `PATH_CONTINUES_PATTERN` detector (no return). -/
def stagePath (s : SessionState) : StageResult :=
  match PATH_CONTINUES_PATTERN s.buffer with
  | none => (s, [], false)
  | some (st, en, d0) =>
    let directions := pyStrip d0
    let s1 := withPlanner s (fun p =>
      record_opportunity (note_event p ("Path continues " ++ directions))
        ("New route available " ++ directions))
    (removeAt s1 st en,
     [Effect.displayed "event"
       ("Path continues " ++ directions ++ "; explore to track new routes")], false)

/-- `CITY_NEAR_PATTERN` detector (no return). -/
def stageCity (s : SessionState) : StageResult :=
  match CITY_NEAR_PATTERN s.buffer with
  | none => (s, [], false)
  | some (st, en, g) =>
    let city := pyStrip g.1
    let direction := pyStrip g.2
    let s1 := withPlanner s (fun p =>
      record_opportunity (note_event p ("City " ++ city ++ " located " ++ direction))
        ("City " ++ city ++ " accessible " ++ direction))
    (removeAt s1 st en,
     [Effect.displayed "event"
       ("Nearby city " ++ city ++ " lies " ++ direction ++
        "; consider visiting for supplies")], false)

/-- `FORGE_PATH_PATTERN` detector (no return). -/
def stageForge (s : SessionState) : StageResult :=
  match FORGE_PATH_PATTERN s.buffer with
  | none => (s, [], false)
  | some (st, en, _) =>
    let s1 := withPlanner s (fun p =>
      record_issue p "Forge entrance available for crafting or trade")
    let r2 := withPlannerE s1 (fun p => request_commands p "forge entrance")
    let s3 := withPlanner r2.1 (fun p =>
      record_opportunity p "Forge nearby; craft or repair gear")
    (removeAt s3 st en,
     [Effect.displayed "event"
       ("Forge entrance spotted; try " ++ sqs ++ "path" ++ sqs ++ " or " ++ sqs ++
        "enter" ++ sqs ++ " to investigate")] ++ r2.2, false)

/-- `SUGGEST_ACTION_PATTERN` detector (no return). -/
def stageActionHint (s : SessionState) : StageResult :=
  match SUGGEST_ACTION_PATTERN s.buffer with
  | none => (s, [], false)
  | some (st, en, a0) =>
    let action := pyStrip a0
    let s1 := withPlanner s (fun p =>
      record_issue p ("Try to " ++ action ++ " the highlighted object"))
    let r2 := withPlannerE s1 (fun p => request_commands p ("try to " ++ action))
    let s3 := withPlanner r2.1 (fun p =>
      record_opportunity p ("Room encourages you to " ++ action))
    (removeAt s3 st en,
     [Effect.displayed "event"
       ("Room suggests you " ++ sqs ++ action ++ sqs ++
        " something; experiment with that verb")] ++ r2.2, false)

/-- `MAP_SUGGESTION_PATTERN` detector (no return). -/
def stageMapHint (s : SessionState) : StageResult :=
  match MAP_SUGGESTION_PATTERN s.buffer with
  | none => (s, [], false)
  | some (st, en, _) =>
    let s1 := withPlanner s (fun p => note_event p "Game suggested using map command")
    let r2 := withPlannerE s1 (fun p => request_commands p "map hint")
    (removeAt r2.1 st en,
     [Effect.displayed "event"
       ("Map hint detected; use " ++ sqs ++ "map" ++ sqs ++ " to orient yourself")] ++
       r2.2, false)

/-- `EXPERIENCE_GAIN_PATTERN` detector (returns). -/
def stageXp (s : SessionState) : StageResult :=
  match EXPERIENCE_GAIN_PATTERN s.buffer with
  | none => (s, [], false)
  | some (st, en, xp) =>
    let message := "Experience gained: " ++ xp
    let s1 := withPlanner s (fun p =>
      record_opportunity (note_event p message)
        "Recent victory yielded experience; consider pressing the advantage")
    let r2 := withPlannerE s1 (fun p => request_commands p "experience gained")
    (removeAt r2.1 st en, [Effect.displayed "event" message] ++ r2.2, true)

/-- `LEVEL_UP_PATTERN` detector (returns). -/
def stageLevel (s : SessionState) : StageResult :=
  match LEVEL_UP_PATTERN s.buffer with
  | none => (s, [], false)
  | some (st, en, level) =>
    let message := "Level up! Now level " ++ level ++ ". Visit trainers for upgrades"
    let s1 := withPlanner s (fun p =>
      record_opportunity (note_event p message)
        "Level increased; visit trainers or spend new skill points")
    let r2 := withPlannerE s1 (fun p => request_commands p "level up")
    (removeAt r2.1 st en, [Effect.displayed "event" message] ++ r2.2, true)

/-- `SKILL_IMPROVE_PATTERN` detector (returns). -/
def stageSkill (s : SessionState) : StageResult :=
  match SKILL_IMPROVE_PATTERN s.buffer with
  | none => (s, [], false)
  | some (st, en, sk) =>
    let skill := pyStrip sk
    let message := "Skill improved: " ++ skill
    let s1 := withPlanner s (fun p =>
      record_opportunity (note_event p message)
        ("Skill " ++ skill ++ " improved; seek tougher challenges"))
    let r2 := withPlannerE s1 (fun p => request_commands p "skill improved")
    (removeAt r2.1 st en, [Effect.displayed "event" message] ++ r2.2, true)

/-- `COIN_GAIN_PATTERN` detector (returns). -/
def stageCoin (s : SessionState) : StageResult :=
  match COIN_GAIN_PATTERN s.buffer with
  | none => (s, [], false)
  | some (st, en, amount) =>
    let message := "Collected " ++ toString amount ++ " gold coins"
    let s1 := withPlanner { s with goldFailures := 0 } (fun p =>
      record_opportunity (note_event p message)
        "Gold reserves growing; consider visiting shops or banks")
    let r2 := withPlannerE s1 (fun p => request_commands p "gold collected")
    (removeAt r2.1 st en, [Effect.displayed "event" message] ++ r2.2, true)

/-- `ITEM_ACQUIRE_PATTERN` detector (returns). -/
def stageItem (s : SessionState) : StageResult :=
  match ITEM_ACQUIRE_PATTERN s.buffer with
  | none => (s, [], false)
  | some (st, en, item0) =>
    let item := pyStrip item0
    let r1 :=
      if item ≠ "" ∧ ¬containsSub "gold" (lcStr item) then
        let message := "Acquired item: " ++ item
        let s1 := withPlanner s (fun p =>
          record_opportunity (note_event p message)
            ("Evaluate newly acquired " ++ item ++ " for use or sale"))
        let r2 := withPlannerE s1 (fun p => request_commands p "item acquired")
        (r2.1, [Effect.displayed "event" message] ++ r2.2)
      else (s, ([] : List Effect))
    (removeAt r1.1 st en, r1.2, true)

/-- `SEARCH_SUCCESS_PATTERN` detector (returns). -/
def stageSearchSuccess (s : SessionState) : StageResult :=
  match SEARCH_SUCCESS_PATTERN s.buffer with
  | none => (s, [], false)
  | some (st, en, d0) =>
    let discovery := pyStrip d0
    let message := "Search uncovered " ++ discovery
    let s1 := withPlanner { s with searchFailures := 0 } (fun p =>
      record_opportunity (note_event p message)
        ("Investigate discovered " ++ discovery))
    let r2 := withPlannerE s1 (fun p => request_commands p "search success")
    (removeAt r2.1 st en, [Effect.displayed "event" message] ++ r2.2, true)

/-- `REST_COMPLETE_PATTERN` detector (returns). -/
def stageRestComplete (s : SessionState) : StageResult :=
  match REST_COMPLETE_PATTERN s.buffer with
  | none => (s, [], false)
  | some (st, en, _) =>
    let s1 := withPlanner s (fun p =>
      record_opportunity (update_rest_state (note_event p "Rest completed") "rested")
        "Recovered energy; resume exploration or hunting")
    let r2 := withPlannerE s1 (fun p => request_commands p "rest complete")
    (removeAt r2.1 st en,
     [Effect.displayed "event" "Rest completed; HP/EP refreshed"] ++ r2.2, true)

/-- `DOOR_OPENED_PATTERN` detector (returns). -/
def stageDoorOpened (s : SessionState) : StageResult :=
  match DOOR_OPENED_PATTERN s.buffer with
  | none => (s, [], false)
  | some (st, en, d0) =>
    let direction := lcStr d0
    let s1 := withPlanner s (fun p => note_event p ("Opened " ++ direction ++ " door"))
    let r2 := withPlannerE s1 (fun p => request_commands p "door opened")
    (removeAt r2.1 st en,
     [Effect.displayed "event"
       (pyTitle direction ++ " door opened; proceed through before it closes")] ++
       r2.2, true)

/-- `DOOR_LOCKED_PATTERN` detector (returns). -/
def stageDoorLocked (s : SessionState) : StageResult :=
  match DOOR_LOCKED_PATTERN s.buffer with
  | none => (s, [], false)
  | some (st, en, d0) =>
    let direction := lcStr d0
    let s1 := withPlanner s (fun p => record_issue p (pyTitle direction ++ " door locked"))
    let r2 := withPlannerE s1 (fun p => request_commands p "door locked")
    (removeAt r2.1 st en,
     [Effect.displayed "event"
       ("The " ++ direction ++ " door is locked; find a key or alternate route")] ++
       r2.2, true)

/-- `HINT_SUGGESTION_PATTERN` detector (no display, no return). -/
def stageHint (s : SessionState) : StageResult :=
  match HINT_SUGGESTION_PATTERN s.buffer with
  | none => (s, [], false)
  | some (st, en, h0) =>
    let hint_text := pyStrip h0
    let s1 := withPlanner s (fun p =>
      note_event (record_issue p ("Hint: " ++ hint_text))
        ("Hint observed: " ++ hint_text))
    let r2 := withPlannerE s1 (fun p => request_commands p "hint observed")
    (removeAt r2.1 st en, r2.2, false)

/-- `UPDATES_ALERT_PATTERN` detector (no return). -/
def stageUpdates (s : SessionState) : StageResult :=
  match UPDATES_ALERT_PATTERN s.buffer with
  | none => (s, [], false)
  | some (st, en, _) =>
    let s1 := withPlanner s (fun p =>
      record_issue (note_event p "Game announced new updates")
        ("Review " ++ sqs ++ "updates all" ++ sqs ++ " for new content"))
    let r2 := withPlannerE s1 (fun p => request_commands p "updates available")
    (removeAt r2.1 st en,
     [Effect.displayed "event"
       ("Updates available; run " ++ sqs ++ "updates all" ++ sqs ++
        " for the latest changes")] ++ r2.2, false)

/-- `EMAIL_REMINDER_PATTERN` detector (no return). -/
def stageEmail (s : SessionState) : StageResult :=
  match EMAIL_REMINDER_PATTERN s.buffer with
  | none => (s, [], false)
  | some (st, en, _) =>
    (removeAt s st en,
     [Effect.displayed "event"
       ("Email not set; use " ++ sqs ++ "chfn" ++ sqs ++ " if needed (optional)")],
     false)

/-- `INVENTORY_HEADER_PATTERN` detector (no return). -/
def stageInvHeader (s : SessionState) : StageResult :=
  match INVENTORY_HEADER_PATTERN s.buffer with
  | none => (s, [], false)
  | some (st, en, g) =>
    let amount := g.1
    let enc_state := pyStrip g.2
    let message :=
      if amount = 0 then "Gold purse is empty; gather coins before shopping"
      else "Gold on hand: " ++ toString amount
    let r1 :=
      if s.lastGoldReport ≠ some amount then
        ({ s with lastGoldReport := some amount },
         [Effect.displayed "event" message])
      else (s, ([] : List Effect))
    let s2 := withPlanner r1.1 (fun p =>
      note_event
        (update_inventory_state
          (update_encumbrance (update_gold p amount) enc_state)
          ("encumbrance " ++ enc_state))
        message)
    (removeAt s2 st en, r1.2, false)

/-- `INVENTORY_EMPTY_PATTERN` detector (no return). -/
def stageInvEmpty (s : SessionState) : StageResult :=
  match INVENTORY_EMPTY_PATTERN s.buffer with
  | none => (s, [], false)
  | some (st, en, _) =>
    let s1 := withPlanner s (fun p =>
      record_issue (update_inventory_state p "empty") "Inventory empty; gather loot")
    (removeAt s1 st en,
     [Effect.displayed "event" "Inventory empty; hunt or loot items to sell"], false)

/-- `INVENTORY_LIST_PATTERN` detector (no return). -/
def stageInvCarrying (s : SessionState) : StageResult :=
  match INVENTORY_LIST_PATTERN s.buffer with
  | none => (s, [], false)
  | some (st, en, _) =>
    (removeAt (withPlanner s (fun p => update_inventory_state p "items carried")) st en,
     [], false)

/-- `NO_GOLD_PATTERN` detector (returns). -/
def stageNoGold (s : SessionState) : StageResult :=
  match NO_GOLD_PATTERN s.buffer with
  | none => (s, [], false)
  | some (st, en, _) =>
    let s0 := { s with goldFailures := s.goldFailures + 1 }
    let failure_summary := if s0.lastCommandSent ≠ "" then s0.lastCommandSent else "purchase"
    let s1 := withPlanner s0 (fun p =>
      record_issue (note_event p "Not enough gold to buy; seek coins or items to sell")
        (failure_summary ++ " blocked by empty purse"))
    let r2 := withPlannerE s1 (fun p => request_commands p "insufficient gold")
    let r3 :=
      if 3 ≤ r2.1.goldFailures then
        (withPlanner r2.1 (fun p => note_event p "Repeated purchase failures due to zero gold"),
         [Effect.displayed "event" "Repeated purchase failures; gather coins before shopping"])
      else (r2.1, ([] : List Effect))
    (removeAt r3.1 st en,
     [Effect.displayed "event" "Purchase failed due to insufficient gold"] ++
       r2.2 ++ r3.2, true)

/-- `RENT_ROOM_REQUIRED_PATTERN` detector (returns). -/
def stageRentRoom (s : SessionState) : StageResult :=
  match RENT_ROOM_REQUIRED_PATTERN s.buffer with
  | none => (s, [], false)
  | some (st, en, _) =>
    let s1 := withPlanner s (fun p =>
      note_event p "Need to rent a room before entering private quarters")
    let r2 := withPlannerE s1 (fun p => request_commands p "rent room required")
    (removeAt r2.1 st en,
     [Effect.displayed "event" "A room rental is required before entering that area"] ++
       r2.2, true)

/-- `TRAVELTO_SIGNPOST_PATTERN` detector (returns). -/
def stageSignpost (s : SessionState) : StageResult :=
  match TRAVELTO_SIGNPOST_PATTERN s.buffer with
  | none => (s, [], false)
  | some (st, en, _) =>
    let s1 := withPlanner s (fun p =>
      note_event p "Travelto attempt failed away from signpost")
    let r2 := withPlannerE s1 (fun p => request_commands p "travelto signpost needed")
    (removeAt r2.1 st en,
     [Effect.displayed "event" "Travelto can only be used at signposts; locate one first"] ++
       r2.2, true)

/-- `MENU_HINT_PATTERN` detector (no return). -/
def stageMenu (s : SessionState) : StageResult :=
  match MENU_HINT_PATTERN s.buffer with
  | none => (s, [], false)
  | some (st, en, _) =>
    let s1 := withPlanner s (fun p =>
      record_issue (note_event p "Tavern suggested using menu")
        "Need coins to order from menu")
    let r2 := withPlannerE s1 (fun p => request_commands p "menu hint")
    (removeAt r2.1 st en,
     [Effect.displayed "event"
       ("Menu hint detected; use " ++ sqs ++ "read menu" ++ sqs ++ " then " ++ sqs ++
        "order <item>" ++ sqs)] ++ r2.2, false)

/-- `BOARD_HELP_PATTERN` detector (no return). -/
def stageBoard (s : SessionState) : StageResult :=
  match BOARD_HELP_PATTERN s.buffer with
  | none => (s, [], false)
  | some (st, en, _) =>
    let s1 := withPlanner s (fun p =>
      record_issue (note_event p "Board suggested consulting help file")
        ("Use " ++ sqs ++ "help board" ++ sqs ++ " for instructions"))
    let r2 := withPlannerE s1 (fun p => request_commands p "board help")
    (removeAt r2.1 st en,
     [Effect.displayed "event"
       ("Message board help available; try " ++ sqs ++ "help board" ++ sqs)] ++
       r2.2, false)

/-- `SEARCH_FAIL_PATTERN` detector (returns). -/
def stageSearchFail (s : SessionState) : StageResult :=
  match SEARCH_FAIL_PATTERN s.buffer with
  | none => (s, [], false)
  | some (st, en, _) =>
    let s0 := { s with searchFailures := s.searchFailures + 1 }
    let failure_summary := if s0.lastCommandSent ≠ "" then s0.lastCommandSent else "search"
    let s1 := withPlanner s0 (fun p =>
      record_issue (note_event p "Search failed; consider new area or target")
        (failure_summary ++ " yielded nothing"))
    let r2 := withPlannerE s1 (fun p => request_commands p "search failed")
    let r3 :=
      if 3 ≤ r2.1.searchFailures then
        (withPlanner r2.1 (fun p => note_event p "Repeated search failures"),
         [Effect.displayed "event"
           "Multiple searches failed; explore new rooms or hunt creatures"])
      else (r2.1, ([] : List Effect))
    (removeAt r3.1 st en,
     [Effect.displayed "event" "Search revealed nothing; try other rooms or targets"] ++
       r2.2 ++ r3.2, true)

/-- `DIRECTION_BLOCK_PATTERN` detector (returns). -/
def stageDirectionBlock (s : SessionState) : StageResult :=
  match DIRECTION_BLOCK_PATTERN s.buffer with
  | none => (s, [], false)
  | some (st, en, _) =>
    let s1 := withPlanner s (fun p => note_event p "Path blocked by obstacle")
    let r2 := withPlannerE s1 (fun p => request_commands p "movement blocked")
    (removeAt r2.1 st en,
     [Effect.displayed "event"
       "Movement blocked; choose another direction or resume travelto"] ++ r2.2, true)

/-- `CLOSED_DOOR_PATTERN` detector (returns). -/
def stageClosedDoor (s : SessionState) : StageResult :=
  match CLOSED_DOOR_PATTERN s.buffer with
  | none => (s, [], false)
  | some (st, en, d0) =>
    let direction := lcStr d0
    let s1 := withPlanner s (fun p => record_issue p (direction ++ " door closed"))
    let r2 := withPlannerE s1 (fun p => request_commands p "door closed")
    (removeAt r2.1 st en,
     [Effect.displayed "event"
       ("The " ++ direction ++ " door is closed; try " ++ sqs ++ "open " ++ direction ++
        " door" ++ sqs ++ " before moving")] ++ r2.2, true)

/-- `TARGET_MISSING_PATTERN` detector (returns). -/
def stageTargetMissing (s : SessionState) : StageResult :=
  match TARGET_MISSING_PATTERN s.buffer with
  | none => (s, [], false)
  | some (st, en, _) =>
    let s1 := withPlanner s (fun p =>
      note_event p "Attempted interaction failed; target missing")
    let r2 := withPlannerE s1 (fun p => request_commands p "target missing")
    (removeAt r2.1 st en,
     [Effect.displayed "event"
       "Target not present; try examining the room or another NPC"] ++ r2.2, true)

/-- `TAKE_MISSING_PATTERN` detector (returns). -/
def stageTakeMissing (s : SessionState) : StageResult :=
  match TAKE_MISSING_PATTERN s.buffer with
  | none => (s, [], false)
  | some (st, en, _) =>
    let s1 := withPlanner s (fun p => note_event p "Failed to pick up item")
    let r2 := withPlannerE s1 (fun p => request_commands p "item missing")
    (removeAt r2.1 st en,
     [Effect.displayed "event"
       "No such item to take here; search or hunt for loot"] ++ r2.2, true)

/-- `CORPSE_MISSING_PATTERN` detector (returns). -/
def stageCorpseMissing (s : SessionState) : StageResult :=
  match CORPSE_MISSING_PATTERN s.buffer with
  | none => (s, [], false)
  | some (st, en, _) =>
    let s1 := withPlanner s (fun p =>
      record_issue p "Attempted to loot before corpse existed")
    let r2 := withPlannerE s1 (fun p => request_commands p "corpse missing")
    (removeAt r2.1 st en,
     [Effect.displayed "event"
       "No corpse available yet; finish combat before looting"] ++ r2.2, true)

/-- `NO_STOCK_PATTERN` detector (returns). -/
def stageNoStock (s : SessionState) : StageResult :=
  match NO_STOCK_PATTERN s.buffer with
  | none => (s, [], false)
  | some (st, en, _) =>
    let s1 := withPlanner s (fun p =>
      record_issue (note_event p "Shop reported no stock") "Requested item not sold here")
    let r2 := withPlannerE s1 (fun p => request_commands p "item unavailable")
    (removeAt r2.1 st en,
     [Effect.displayed "event"
       ("Shop lacks that item; check " ++ sqs ++ "list" ++ sqs ++
        " or try another vendor")] ++ r2.2, true)

/-- `ITEM_BELONGS_PATTERN` detector (returns). -/
def stageItemBelongs (s : SessionState) : StageResult :=
  match ITEM_BELONGS_PATTERN s.buffer with
  | none => (s, [], false)
  | some (st, en, _) =>
    let s1 := withPlanner s (fun p =>
      record_issue p "Item was owned; look for alternatives")
    let r2 := withPlannerE s1 (fun p => request_commands p "item owned")
    (removeAt r2.1 st en,
     [Effect.displayed "event"
       "Item belongs to someone; avoid theft and seek legal loot"] ++ r2.2, true)

/-- `STEALING_PATTERN` detector (returns). -/
def stageStealing (s : SessionState) : StageResult :=
  match STEALING_PATTERN s.buffer with
  | none => (s, [], false)
  | some (st, en, _) =>
    let s1 := withPlanner s (fun p => note_event p "Stealing attempt blocked")
    let r2 := withPlannerE s1 (fun p => request_commands p "stealing blocked")
    (removeAt r2.1 st en,
     [Effect.displayed "event"
       "Stealing is not allowed here; find lawful ways to earn gold"] ++ r2.2, true)

/-- `MULTI_TARGET_PATTERN` detector (returns). -/
def stageMultiTarget (s : SessionState) : StageResult :=
  match MULTI_TARGET_PATTERN s.buffer with
  | none => (s, [], false)
  | some (st, en, _) =>
    let s1 := withPlanner s (fun p =>
      note_event p "Need to disambiguate multi-target selection")
    let r2 := withPlannerE s1 (fun p => request_commands p "multiple targets")
    (removeAt r2.1 st en,
     [Effect.displayed "event"
       "Multiple targets found; specify which NPC or item to interact with"] ++
       r2.2, true)

/-- `WIELD_WHAT_PATTERN` detector (returns). -/
def stageWield (s : SessionState) : StageResult :=
  match WIELD_WHAT_PATTERN s.buffer with
  | none => (s, [], false)
  | some (st, en, _) =>
    let s1 := withPlanner s (fun p =>
      record_issue p "Wield command missing target item")
    let r2 := withPlannerE s1 (fun p => request_commands p "wield guidance")
    (removeAt r2.1 st en,
     [Effect.displayed "event"
       "Specify an item to wield; check inventory for weapons"] ++ r2.2, true)

/-- `NEWS_ALERT_PATTERN` detector (no return). -/
def stageNews (s : SessionState) : StageResult :=
  match NEWS_ALERT_PATTERN s.buffer with
  | none => (s, [], false)
  | some (st, en, _) =>
    let s1 := withPlanner s (fun p =>
      record_issue (note_event p "News bulletin advertised") "Review latest news for quests")
    let r2 := withPlannerE s1 (fun p => request_commands p "news alert")
    (removeAt r2.1 st en,
     [Effect.displayed "event"
       ("News available; use " ++ sqs ++ "news" ++ sqs ++ " or " ++ sqs ++
        "read news" ++ sqs)] ++ r2.2, false)

/-- `ASK_BLANK_PATTERN` detector (returns). -/
def stageAskBlank (s : SessionState) : StageResult :=
  match ASK_BLANK_PATTERN s.buffer with
  | none => (s, [], false)
  | some (st, en, npc0) =>
    let npc := pyStrip npc0
    let s1 := withPlanner s (fun p =>
      record_issue (note_event p (npc ++ " offered no information"))
        (npc ++ " could not help"))
    let r2 := withPlannerE s1 (fun p => request_commands p "npc unhelpful")
    (removeAt r2.1 st en,
     [Effect.displayed "event"
       (npc ++ " has no answer; try another topic or character")] ++ r2.2, true)

/-- `BLANK_RESPONSE_PATTERN` detector (returns); the planner is woken only
from the second consecutive blank response on. -/
def stageBlankResponse (s : SessionState) : StageResult :=
  match BLANK_RESPONSE_PATTERN s.buffer with
  | none => (s, [], false)
  | some (st, en, _) =>
    let s0 := { s with blankResponseStreak := s.blankResponseStreak + 1 }
    let s1 := withPlanner s0 (fun p =>
      record_issue (note_event p "NPC looked blankly") "NPC offered no clues")
    let r2 :=
      if 2 ≤ s1.blankResponseStreak then
        withPlannerE s1 (fun p => request_commands p "npc unresponsive")
      else (s1, ([] : List Effect))
    (removeAt r2.1 st en,
     [Effect.displayed "event"
       "NPC is unresponsive; switch topics or explore elsewhere"] ++ r2.2, true)

/-- `REST_START_PATTERN` detector (returns). -/
def stageRestStart (s : SessionState) : StageResult :=
  match REST_START_PATTERN s.buffer with
  | none => (s, [], false)
  | some (st, en, _) =>
    let s1 := withPlanner s (fun p =>
      update_rest_state (note_event p "Rest started") "resting")
    let r2 := withPlannerE s1 (fun p => request_commands p "resting")
    (removeAt r2.1 st en,
     [Effect.displayed "event"
       "Resting to recover; monitor HP/EP before resuming hunts"] ++ r2.2, true)

/-- `REST_INTERRUPT_PATTERN` detector (returns). -/
def stageRestInterrupt (s : SessionState) : StageResult :=
  match REST_INTERRUPT_PATTERN s.buffer with
  | none => (s, [], false)
  | some (st, en, _) =>
    let s1 := withPlanner s (fun p =>
      update_rest_state (note_event p "Rest interrupted") "interrupted")
    let r2 := withPlannerE s1 (fun p => request_commands p "rest interrupted")
    (removeAt r2.1 st en,
     [Effect.displayed "event"
       "Rest interrupted; consider resuming or pursuing another action"] ++ r2.2, true)

/-- `BUSY_ATTACK_PATTERN` detector (returns). -/
def stageBusy (s : SessionState) : StageResult :=
  match BUSY_ATTACK_PATTERN s.buffer with
  | none => (s, [], false)
  | some (st, en, _) =>
    let s1 := withPlanner s (fun p =>
      record_issue p "Too busy to attack; avoid spamming commands")
    (removeAt s1 st en,
     [Effect.displayed "event"
       "Busy fighting; wait for round to finish or issue defensive commands"], true)

/-- `NO_EFFECT_PATTERN` detector (returns). -/
def stageNoEffect (s : SessionState) : StageResult :=
  match NO_EFFECT_PATTERN s.buffer with
  | none => (s, [], false)
  | some (st, en, _) =>
    let s1 := withPlanner s (fun p => record_issue p "Attacks ineffective against foe")
    let r2 := withPlannerE s1 (fun p => request_commands p "attack ineffective")
    (removeAt r2.1 st en,
     [Effect.displayed "event"
       "Attacks have no effect; switch weapons or retreat"] ++ r2.2, true)

/-- `LOW_DAMAGE_PATTERN` detector (no return). -/
def stageLowDamage (s : SessionState) : StageResult :=
  match LOW_DAMAGE_PATTERN s.buffer with
  | none => (s, [], false)
  | some (st, en, _) =>
    let s1 := withPlanner s (fun p => record_issue p "Dealing minimal damage")
    (removeAt s1 st en,
     [Effect.displayed "event"
       "Damage is minimal; consider stronger weapons or new tactics"], false)

/-- `CONSIDER_PATTERN` detector (no return). -/
def stageConsider (s : SessionState) : StageResult :=
  match CONSIDER_PATTERN s.buffer with
  | none => (s, [], false)
  | some (st, en, g) =>
    let target := pyStrip g.1
    let assessment := pyStrip g.2
    let s1 := withPlanner s (fun p =>
      note_event p ("Considered " ++ target ++ ": " ++ assessment))
    (removeAt s1 st en,
     [Effect.displayed "event"
       ("Assessment: " ++ target ++ " is " ++ assessment ++
        "; choose fights accordingly")], false)

/-- Timestamp lookup in the `_recent_targets` dictionary
(`dict.get(key, 0.0)`). -/
def lookupTime (m : List (String × ℚ)) (k : String) : ℚ :=
  match m.find? (fun kv => kv.1 == k) with
  | some kv => kv.2
  | none => 0

/-- Timestamp store in the `_recent_targets` dictionary. -/
def setTime (m : List (String × ℚ)) (k : String) (v : ℚ) : List (String × ℚ) :=
  if (m.find? (fun kv => kv.1 == k)).isSome then
    m.map (fun kv => if kv.1 == k then (k, v) else kv)
  else m ++ [(k, v)]

/-- `TARGET_LINE_PATTERN` detector (returns): enemy sightings, deduplicated
by normalised name inside the `TARGET_MEMORY_SECONDS` window. -/
def stageEnemy (now : ℚ) (s : SessionState) : StageResult :=
  match TARGET_LINE_PATTERN s.buffer with
  | none => (s, [], false)
  | some (st, en, g) =>
    let raw_name := pyStrip g.1
    let level := g.2
    let normalized := normalizeName raw_name
    if TARGET_MEMORY_SECONDS < now - lookupTime s.recentTargets normalized then
      let s1 := { s with recentTargets := setTime s.recentTargets normalized now }
      let message := "Potential foe spotted: " ++ raw_name ++ " (lvl " ++ level ++ ")"
      let s2 := withPlanner s1 (fun p => note_event p message)
      let r3 := withPlannerE s2 (fun p => request_commands p "enemy spotted")
      (removeAt r3.1 st en, [Effect.displayed "event" message] ++ r3.2, true)
    else (removeAt s st en, [], true)

/-- `NO_QUESTS_PATTERN` detector (returns). -/
def stageNoQuests (s : SessionState) : StageResult :=
  match NO_QUESTS_PATTERN s.buffer with
  | none => (s, [], false)
  | some (st, en, _) =>
    let s1 := withPlanner s (fun p =>
      record_issue (note_event p "Quest log empty") "Seek quests or newbie jobs")
    let r2 := withPlannerE s1 (fun p => request_commands p "quest search")
    (removeAt r2.1 st en,
     [Effect.displayed "event"
       "No quests completed yet; explore towns for tasks"] ++ r2.2, true)

/-- `GOLD_STATUS_PATTERN` detector (returns when it matches): only the last
`finditer` match counts; an unchanged amount is removed silently. -/
def stageGold (s : SessionState) : StageResult :=
  match (GOLD_STATUS_PATTERN_finditer s.buffer).getLast? with
  | none => (s, [], false)
  | some (st, en, amount) =>
    if s.lastGoldReport = some amount then (removeAt s st en, [], true)
    else
      let s0 := { s with lastGoldReport := some amount }
      let message :=
        if amount = 0 then "Gold purse is empty; gather coins before shopping"
        else "Gold on hand: " ++ toString amount
      let s1 := withPlanner s0 (fun p => note_event (update_gold p amount) message)
      let r2 :=
        if amount = 0 then withPlannerE s1 (fun p => request_commands p "gold depleted")
        else (s1, ([] : List Effect))
      let s3 := if 0 < amount then { r2.1 with goldFailures := 0 } else r2.1
      (removeAt s3 st en, [Effect.displayed "event" message] ++ r2.2, true)

/-- `PROMPT_PATTERN` detector (returns when it matches): while travelling
the prompt is consumed silently; the first prompt after login activates the
planner and notes the login, every prompt wakes the planner with reason
`prompt`; the match is consumed. -/
def stagePrompt (s : SessionState) : StageResult :=
  match PROMPT_PATTERN s.buffer with
  | none => (s, [], false)
  | some (_, en, _) =>
    if s.travelActive then (consumeAt s en, [], true)
    else
      let r1 :=
        if ¬s.loggedIn then
          let r2 := withPlannerE { s with loggedIn := true } activate
          let s3 := withPlanner r2.1 (fun p => note_event p "Reached status prompt")
          (s3,
           [Effect.displayed "event" "Login successful; interactive prompt ready"] ++ r2.2)
        else
          (withPlanner s (fun p => note_event p "Status prompt available"),
           ([] : List Effect))
      let r4 := withPlannerE r1.1 (fun p => request_commands p "prompt")
      (consumeAt r4.1 en, r1.2 ++ r4.2, true)

/-- Pagination detector (`--More--` / `Press ENTER`), the final stage: send
a blank line, wake the planner with reason `pagination`, clear the buffer. -/
def stagePagination (s : SessionState) : SessionState × List Effect :=
  if (MORE_PATTERN s.buffer).isSome ∨ (PRESS_ENTER_PATTERN s.buffer).isSome then
    let r := send_blank s
    let r2 := withPlannerE r.1 (fun p => request_commands p "pagination")
    ({ r2.1 with buffer := "" },
     [Effect.displayed "event" "Pagination prompt detected; sending newline"] ++
       r.2 ++ r2.2)
  else (s, [])

/-- `TelnetSession._process_buffer`: the ordered detector cascade.  `now` is
the `time.monotonic()` reading of this scan. -/
def process_buffer (now : ℚ) (s : SessionState) : SessionState × List Effect :=
  match s.profile with
  | none => (s, [])
  | some prof =>
    andThenS (stageUsername prof s) fun s =>
    andThenS (stagePassword prof s) fun s =>
    andThenS (stageStatus s) fun s =>
    andThenS (stageTravelStart s) fun s =>
    andThenS (stageTravelResume s) fun s =>
    andThenS (stageTravelEnd s) fun s =>
    andThenS (stageLocation s) fun s =>
    andThenS (stageExits s) fun s =>
    andThenS (stageEnvironment s) fun s =>
    andThenS (stagePath s) fun s =>
    andThenS (stageCity s) fun s =>
    andThenS (stageForge s) fun s =>
    andThenS (stageActionHint s) fun s =>
    andThenS (stageMapHint s) fun s =>
    andThenS (stageXp s) fun s =>
    andThenS (stageLevel s) fun s =>
    andThenS (stageSkill s) fun s =>
    andThenS (stageCoin s) fun s =>
    andThenS (stageItem s) fun s =>
    andThenS (stageSearchSuccess s) fun s =>
    andThenS (stageRestComplete s) fun s =>
    andThenS (stageDoorOpened s) fun s =>
    andThenS (stageDoorLocked s) fun s =>
    andThenS (stageHint s) fun s =>
    andThenS (stageUpdates s) fun s =>
    andThenS (stageEmail s) fun s =>
    andThenS (stageInvHeader s) fun s =>
    andThenS (stageInvEmpty s) fun s =>
    andThenS (stageInvCarrying s) fun s =>
    andThenS (stageNoGold s) fun s =>
    andThenS (stageRentRoom s) fun s =>
    andThenS (stageSignpost s) fun s =>
    andThenS (stageMenu s) fun s =>
    andThenS (stageBoard s) fun s =>
    andThenS (stageSearchFail s) fun s =>
    andThenS (stageDirectionBlock s) fun s =>
    andThenS (stageClosedDoor s) fun s =>
    andThenS (stageTargetMissing s) fun s =>
    andThenS (stageTakeMissing s) fun s =>
    andThenS (stageCorpseMissing s) fun s =>
    andThenS (stageNoStock s) fun s =>
    andThenS (stageItemBelongs s) fun s =>
    andThenS (stageStealing s) fun s =>
    andThenS (stageMultiTarget s) fun s =>
    andThenS (stageWield s) fun s =>
    andThenS (stageNews s) fun s =>
    andThenS (stageAskBlank s) fun s =>
    andThenS (stageBlankResponse s) fun s =>
    andThenS (stageRestStart s) fun s =>
    andThenS (stageRestInterrupt s) fun s =>
    andThenS (stageBusy s) fun s =>
    andThenS (stageNoEffect s) fun s =>
    andThenS (stageLowDamage s) fun s =>
    andThenS (stageConsider s) fun s =>
    andThenS (stageEnemy now s) fun s =>
    andThenS (stageNoQuests s) fun s =>
    andThenS (stageGold s) fun s =>
    andThenS (stagePrompt s) fun s =>
    stagePagination s

/-- The credential section of `_process_buffer` (its first two loops),
taken alone. -/
def credStep (s : SessionState) : SessionState × List Effect :=
  match s.profile with
  | none => (s, [])
  | some prof =>
    match stageUsername prof s with
    | (s1, e1, true) => (s1, e1)
    | (s1, e1, false) =>
      match stagePassword prof s1 with
      | (s2, e2, _) => (s2, e1 ++ e2)

/-- Feed a sequence of raw text chunks through the credential section: each
chunk is appended to the buffer (as the listener loop does) and the
credential detectors run. -/
def credRun (s : SessionState) : List String → SessionState × List Effect
  | [] => (s, [])
  | chunk :: rest =>
    let r1 := credStep { s with buffer := s.buffer ++ chunk }
    let r2 := credRun r1.1 rest
    (r2.1, r1.2 ++ r2.2)

/-- Send each extracted command through the dispatcher in order, as the
worker loop does (`send_callback` is `send_command(..., source="ollama")`). -/
def sendAll : List String → SessionState → SessionState × List Effect
  | [], s => (s, [])
  | c :: rest, s =>
    let r1 := send_command c "ollama" s
    let r2 := sendAll rest r1.1
    (r2.1, r1.2 ++ r2.2)

/-- One woken iteration of `OllamaPlanner._worker_loop`: clear the wake
event, build the prompt (skipping the round when it is `None`), query the
oracle with the given attempt outcomes, extract the commands and send them
all. -/
def worker_round (s : SessionState) (attempts : List AttemptResult) :
    SessionState × List Effect :=
  let s0 := withPlanner s (fun p => { p with requestEventSet := false })
  let bp := build_prompt s0.planner
  let s1 := { s0 with planner := bp.2 }
  match bp.1 with
  | none => (s1, [])
  | some _ =>
    let q := query_ollama s1.planner.enabled attempts
    let cmds := extract_commands s1.planner.maxCommands q.1
    let r := sendAll cmds s1
    (r.1, q.2 ++ r.2)

/-! ## Observation helpers and specification-side definitions -/

/-- The wake reasons contained in an effect list, in order. -/
def wakeReasons (es : List Effect) : List String :=
  es.filterMap fun e =>
    match e with
    | Effect.wake r => some r
    | _ => none

/-- How many times a given command was written to the connection. -/
def countSends (cmd : String) (es : List Effect) : Nat :=
  es.countP fun e =>
    match e with
    | Effect.sentCmd c _ => c == cmd
    | _ => false

/-- How many stderr error lines an effect list contains. -/
def countErrLines (es : List Effect) : Nat :=
  es.countP fun e =>
    match e with
    | Effect.errLine _ => true
    | _ => false

/-- The two planner operations whose interleaving the pending-reason
contract speaks about: a `request_commands` call and a prompt-build step of
the worker. -/
inductive PlannerOp where
  | req (reason : String)
  | build
deriving DecidableEq, Repr

/-- One planner operation applied to the planner state. -/
def plannerOpStep (p : PlannerState) : PlannerOp → PlannerState
  | PlannerOp.req r => (request_commands p r).1
  | PlannerOp.build => (build_prompt p).2

/-- A sequence of planner operations applied in order. -/
def runOps (p : PlannerState) (ops : List PlannerOp) : PlannerState :=
  ops.foldl plannerOpStep p

/-- Modelled from the spec: the pending slot holds the latest requested
reason not yet consumed by a build (replace on request, clear on build). -/
def specPendingAfter (init : Option String) (ops : List PlannerOp) : Option String :=
  ops.foldl
    (fun _acc op =>
      match op with
      | PlannerOp.req r => some r
      | PlannerOp.build => none)
    init

/-- How many credential sends the password flag still allows. -/
def pwPotential (s : SessionState) : Nat := if s.passwordSent then 0 else 1

/-- How many credential sends of the username the two flags still allow
(the password branch sends the username too when no username prompt was
handled yet). -/
def unPotential (s : SessionState) : Nat :=
  (if s.usernameSent then 0 else 1) + (if s.passwordSent then 0 else 1)

/-! ## Concrete example states -/

/-- The first entry of `DEFAULT_PROFILES`. -/
def marchosProfile : CharacterProfile :=
  { username := "Marchos", password := "hello123", label := "Marchos" }

/-- Stand-in for `GameKnowledge.build_reference()`: the knowledge reference
is an opaque string to every claim considered here (the planner only embeds
it into its prompt text). -/
def exampleKnowledge : String := "Core exploration: look, inventory"

/-- A session state as `connect` leaves it: fresh flags, empty buffer, live
connection, freshly reset planner. -/
def connectedSession : SessionState :=
  { profile := some marchosProfile, connection := true, buffer := "",
    usernameSent := false, passwordSent := false, travelActive := false,
    loggedIn := false, recentTargets := [], lastGoldReport := none,
    lastCommandSent := "", searchFailures := 0, goldFailures := 0,
    blankResponseStreak := 0, lastPromptStatus := none,
    lastLocationSummary := none, lastExitsSummary := none,
    lastEnvironmentSummary := none, repeatLocationCount := 0,
    stagnationNoticeLocation := none,
    planner := initPlanner true exampleKnowledge }

/-- An activated planner (as after the first prompt). -/
def activePlanner : PlannerState :=
  { initPlanner true exampleKnowledge with active := true }

/-- An activated planner with buffered context. -/
def contextPlanner : PlannerState :=
  { activePlanner with transcript := ["hello\n"] }

/-- Session about to see its first vitals prompt (credentials already
sent). -/
def c2Session : SessionState :=
  { connectedSession with
    buffer := "HP: 100 EP: 100>"
    usernameSent := true
    passwordSent := true }

/-- Session whose first server bytes are a password prompt. -/
def c10Session : SessionState :=
  { connectedSession with buffer := "Password:" }

/-- First listener scan of `c10Session`. -/
def c10FirstStep : SessionState × List Effect := process_buffer 0 c10Session

/-- The state after a username prompt arrives next. -/
def c10SecondState : SessionState :=
  { c10FirstStep.1 with buffer := c10FirstStep.1.buffer ++ "Enter your name:" }

/-- Second listener scan. -/
def c10SecondStep : SessionState × List Effect := process_buffer 0 c10SecondState

/-- Session with an enemy line buffered and the foe `orc` announced at
monotonic time 10. -/
def c7Session : SessionState :=
  { connectedSession with
    buffer := "An orc [3]"
    recentTargets := [("orc", 10)]
    planner := activePlanner }

/-- Active session with buffered context, ready for a worker round. -/
def c6Session : SessionState :=
  { connectedSession with planner := contextPlanner }

/-- Session whose connection handle is gone. -/
def c9Session : SessionState :=
  { connectedSession with connection := false }

/-- The wrapped oracle response body
`{"response": "{\"commands\": [\"look\",\"north\"]}"}`. -/
def c4WrappedPayload : String :=
  "\x7b\"response\": \"\x7b\\\"commands\\\": [\\\"look\\\",\\\"north\\\"]\x7d\"\x7d"

/-- The directly-returned shape `{"commands": ["look","north"]}`. -/
def c4DirectPayload : String := "\x7b\"commands\": [\"look\",\"north\"]\x7d"

/-- A structured response whose commands array has an explicit empty-string
entry: `{"commands": ["", "look"]}`. -/
def c5Payload : String := "\x7b\"commands\": [\"\", \"look\"]\x7d"

/-- Planner state with a recorded location, one prompt old. -/
def c8Planner : PlannerState :=
  { activePlanner with location := some "The Inn", locationStreak := 1 }

/-- Session that has already seen its first prompt, with another one
buffered. -/
def c2LoggedSession : SessionState :=
  { c2Session with loggedIn := true, planner := activePlanner }

/-! # Theorems

Helper lemmas first, then one theorem per claim (with its witness or
counterexample where required). -/

/-- The eviction loop leaves the transcript at or under the cap. -/
theorem transcriptTotal_evictOldest_le (cap : Nat) (l : List String) :
    transcriptTotal (evictOldest cap l) ≤ cap := by
  induction l with
  | nil => simp [evictOldest, transcriptTotal]
  | cons c rest ih =>
    rw [evictOldest]
    split
    · assumption
    · exact ih

/-- `_append_transcript` always lands at or under the cap. -/
theorem transcriptTotal_append_le (cap : Nat) (t : List String) (x : String) :
    transcriptTotal (append_transcript cap t x) ≤ cap :=
  transcriptTotal_evictOldest_le cap (t ++ [x])

/-- `appendT` lands at or under the planner cap. -/
theorem appendT_total_le (p : PlannerState) (x : String) :
    transcriptTotal (p.appendT x).transcript ≤ p.maxContextChars :=
  transcriptTotal_append_le p.maxContextChars p.transcript x

/-- C1: every append through `_append_transcript` evicts oldest chunks
until the total character count is at most `max_context_chars` — so it holds
unconditionally after the append, even for a single chunk larger than the
cap — and consequently every transcript-writing planner operation
(`observe_output`, the tagged `update_*` lines, `record_command`,
`note_event`, `record_opportunity`) preserves the cap bound, for every
sequence of such operations. -/
theorem C1_transcript_never_exceeds_cap :
    (∀ (cap : Nat) (t : List String) (x : String),
        transcriptTotal (append_transcript cap t x) ≤ cap) ∧
    (∀ (p : PlannerState) (text : String),
        transcriptTotal p.transcript ≤ p.maxContextChars →
        transcriptTotal (observe_output p text).transcript ≤ p.maxContextChars) ∧
    (∀ (p : PlannerState) (hp ep : Nat),
        transcriptTotal p.transcript ≤ p.maxContextChars →
        transcriptTotal (update_vitals p hp ep).transcript ≤ p.maxContextChars) ∧
    (∀ (p : PlannerState) (amount : Nat),
        transcriptTotal p.transcript ≤ p.maxContextChars →
        transcriptTotal (update_gold p amount).transcript ≤ p.maxContextChars) ∧
    (∀ (p : PlannerState) (location : String),
        transcriptTotal p.transcript ≤ p.maxContextChars →
        transcriptTotal (update_location p location).transcript ≤ p.maxContextChars) ∧
    (∀ (p : PlannerState) (exits : String),
        transcriptTotal p.transcript ≤ p.maxContextChars →
        transcriptTotal (update_exits p exits).transcript ≤ p.maxContextChars) ∧
    (∀ (p : PlannerState) (d : String),
        transcriptTotal p.transcript ≤ p.maxContextChars →
        transcriptTotal (update_environment p d).transcript ≤ p.maxContextChars) ∧
    (∀ (p : PlannerState) (st : String),
        transcriptTotal p.transcript ≤ p.maxContextChars →
        transcriptTotal (update_travel_state p st).transcript ≤ p.maxContextChars) ∧
    (∀ (p : PlannerState) (st : String),
        transcriptTotal p.transcript ≤ p.maxContextChars →
        transcriptTotal (update_rest_state p st).transcript ≤ p.maxContextChars) ∧
    (∀ (p : PlannerState) (st : String),
        transcriptTotal p.transcript ≤ p.maxContextChars →
        transcriptTotal (update_encumbrance p st).transcript ≤ p.maxContextChars) ∧
    (∀ (p : PlannerState) (st : String),
        transcriptTotal p.transcript ≤ p.maxContextChars →
        transcriptTotal (update_inventory_state p st).transcript ≤ p.maxContextChars) ∧
    (∀ (p : PlannerState) (c src : String),
        transcriptTotal p.transcript ≤ p.maxContextChars →
        transcriptTotal (record_command p c src).transcript ≤ p.maxContextChars) ∧
    (∀ (p : PlannerState) (m : String),
        transcriptTotal p.transcript ≤ p.maxContextChars →
        transcriptTotal (note_event p m).transcript ≤ p.maxContextChars) ∧
    (∀ (p : PlannerState) (m : String),
        transcriptTotal p.transcript ≤ p.maxContextChars →
        transcriptTotal (record_opportunity p m).transcript ≤ p.maxContextChars) := by
  refine ⟨transcriptTotal_append_le, ?_, ?_, ?_, ?_, ?_, ?_, ?_, ?_, ?_, ?_, ?_, ?_, ?_⟩
  · intro p text h
    simp only [observe_output]
    split_ifs <;> first | exact h | exact appendT_total_le _ _
  · intro p hp ep h
    simp only [update_vitals]
    split_ifs <;> first | exact h | exact appendT_total_le _ _
  · intro p amount h
    simp only [update_gold]
    split_ifs <;> first | exact h | exact appendT_total_le _ _
  · intro p location h
    simp only [update_location]
    split_ifs <;> first | exact h | exact appendT_total_le _ _
  · intro p exits h
    simp only [update_exits]
    split_ifs <;> first | exact h | exact appendT_total_le _ _
  · intro p d h
    simp only [update_environment]
    split_ifs <;> first | exact h | exact appendT_total_le _ _
  · intro p st h
    simp only [update_travel_state]
    split_ifs <;> first | exact h | exact appendT_total_le _ _
  · intro p st h
    simp only [update_rest_state]
    split_ifs <;> first | exact h | exact appendT_total_le _ _
  · intro p st h
    simp only [update_encumbrance]
    split_ifs <;> first | exact h | exact appendT_total_le _ _
  · intro p st h
    simp only [update_inventory_state]
    split_ifs <;> first | exact h | exact appendT_total_le _ _
  · intro p c src h
    simp only [record_command]
    split_ifs <;> first | exact h | exact appendT_total_le _ _
  · intro p m h
    simp only [note_event]
    split_ifs <;> first | exact h | exact appendT_total_le _ _
  · intro p m h
    simp only [record_opportunity]
    split_ifs <;> first | exact h | exact appendT_total_le _ _

/-- C1 witness: the cap bound instantiated at concrete planner states. -/
theorem C1_transcript_never_exceeds_cap_witness :
    transcriptTotal (observe_output (initPlanner true exampleKnowledge) "hello\n").transcript ≤
      (initPlanner true exampleKnowledge).maxContextChars ∧
    transcriptTotal (update_location c8Planner "The Inn").transcript ≤
      c8Planner.maxContextChars :=
  ⟨C1_transcript_never_exceeds_cap.2.1 (initPlanner true exampleKnowledge) "hello\n"
      (by decide),
   C1_transcript_never_exceeds_cap.2.2.2.2.1 c8Planner "The Inn" (by decide)⟩

/-- `note_event` only touches the event deque and the transcript. -/
theorem note_event_preserves (p : PlannerState) (m : String) :
    (note_event p m).enabled = p.enabled ∧ (note_event p m).active = p.active ∧
    (note_event p m).pendingReason = p.pendingReason ∧
    (note_event p m).lastHp = p.lastHp ∧ (note_event p m).lastEp = p.lastEp := by
  simp only [note_event, PlannerState.appendT]
  split_ifs <;> simp

/-- `record_issue` only touches the issue structures. -/
theorem record_issue_preserves (p : PlannerState) (m : String) :
    (record_issue p m).enabled = p.enabled ∧ (record_issue p m).active = p.active ∧
    (record_issue p m).pendingReason = p.pendingReason ∧
    (record_issue p m).lastHp = p.lastHp ∧ (record_issue p m).lastEp = p.lastEp := by
  simp only [record_issue]
  split_ifs <;> simp

/-- `update_rest_state` only touches the rest state and the transcript. -/
theorem update_rest_state_preserves (p : PlannerState) (st : String) :
    (update_rest_state p st).enabled = p.enabled ∧
    (update_rest_state p st).active = p.active ∧
    (update_rest_state p st).pendingReason = p.pendingReason ∧
    (update_rest_state p st).lastHp = p.lastHp ∧
    (update_rest_state p st).lastEp = p.lastEp := by
  simp only [update_rest_state, PlannerState.appendT]
  split_ifs <;> simp

/-- On an enabled planner, `update_vitals` records the observed pair (both
when it changed and when it matches the stored one). -/
theorem update_vitals_sets (p : PlannerState) (hp ep : Nat)
    (he : p.enabled = true) :
    (update_vitals p hp ep).lastHp = some hp ∧
    (update_vitals p hp ep).lastEp = some ep := by
  simp only [update_vitals, PlannerState.appendT]
  split_ifs with h1 h2 <;> simp_all

/-- `request_commands` on an enabled, active planner: the pending slot is
replaced and exactly one wake is signalled. -/
theorem request_commands_eq (p : PlannerState) (r : String)
    (he : p.enabled = true) (ha : p.active = true) :
    (request_commands p r).1.pendingReason = some r ∧
    (request_commands p r).1.enabled = p.enabled ∧
    (request_commands p r).1.active = p.active ∧
    (request_commands p r).2 = [Effect.wake r] := by
  simp [request_commands, he, ha]

/-- `activate` on an enabled planner: the planner becomes active and a wake
with reason `session start` is signalled. -/
theorem activate_fields (p : PlannerState) (he : p.enabled = true) :
    (activate p).1.active = true ∧ (activate p).1.enabled = true ∧
    (activate p).1.pendingReason = some "session start" ∧
    (activate p).2 = [Effect.wake "session start"] := by
  simp [activate, request_commands, he]

@[simp] theorem note_event_lastHp (p : PlannerState) (m : String) :
    (note_event p m).lastHp = p.lastHp := (note_event_preserves p m).2.2.2.1

@[simp] theorem note_event_lastEp (p : PlannerState) (m : String) :
    (note_event p m).lastEp = p.lastEp := (note_event_preserves p m).2.2.2.2

@[simp] theorem record_issue_lastHp (p : PlannerState) (m : String) :
    (record_issue p m).lastHp = p.lastHp := (record_issue_preserves p m).2.2.2.1

@[simp] theorem record_issue_lastEp (p : PlannerState) (m : String) :
    (record_issue p m).lastEp = p.lastEp := (record_issue_preserves p m).2.2.2.2

@[simp] theorem update_rest_state_lastHp (p : PlannerState) (st : String) :
    (update_rest_state p st).lastHp = p.lastHp :=
  (update_rest_state_preserves p st).2.2.2.1

@[simp] theorem update_rest_state_lastEp (p : PlannerState) (st : String) :
    (update_rest_state p st).lastEp = p.lastEp :=
  (update_rest_state_preserves p st).2.2.2.2

/-- C2 counterexample: at the first vitals-prompt occurrence (session
`c2Session`, buffer `HP: 100 EP: 100>`), the code never enqueues a wake
with reason `login`; activation enqueues reason `session start`, which the
unconditional prompt wake immediately replaces with `prompt` in the single
pending slot. -/
theorem C2_counterexample :
    wakeReasons (process_buffer 0 c2Session).2 = ["session start", "prompt"] ∧
    Effect.wake "login" ∉ (process_buffer 0 c2Session).2 ∧
    (process_buffer 0 c2Session).1.planner.pendingReason = some "prompt" := by
  decide

/-- C2 (amended): when the vitals status prompt is detected, the detector
extracts the integer pair and records it in the status tracker; on the
first occurrence in a connection the session transitions to active (the
planner is activated) and wakes are enqueued with reason `session start`
(from activation) and then `prompt`, the single pending slot ending at
`prompt`; on every subsequent occurrence one wake with reason `prompt` is
enqueued. -/
theorem C2_amended_prompt_behavior :
    (∀ (s : SessionState) (st en hp ep : Nat),
        s.planner.enabled = true →
        PROMPT_STATUS_PATTERN s.buffer = some (st, en, (hp, ep)) →
        (stageStatus s).1.planner.lastHp = some hp ∧
        (stageStatus s).1.planner.lastEp = some ep) ∧
    (∀ (s : SessionState) (st en : Nat),
        s.planner.enabled = true →
        PROMPT_PATTERN s.buffer = some (st, en, ()) →
        s.travelActive = false → s.loggedIn = false →
        (stagePrompt s).1.loggedIn = true ∧
        (stagePrompt s).1.planner.active = true ∧
        (stagePrompt s).1.planner.pendingReason = some "prompt" ∧
        (stagePrompt s).2.1 =
          [Effect.displayed "event" "Login successful; interactive prompt ready",
           Effect.wake "session start", Effect.wake "prompt"]) ∧
    (∀ (s : SessionState) (st en : Nat),
        s.planner.enabled = true → s.planner.active = true →
        PROMPT_PATTERN s.buffer = some (st, en, ()) →
        s.travelActive = false → s.loggedIn = true →
        (stagePrompt s).1.planner.pendingReason = some "prompt" ∧
        (stagePrompt s).2.1 = [Effect.wake "prompt"]) := by
  refine ⟨?_, ?_, ?_⟩
  · intro s st en hp ep he hm
    unfold stageStatus
    rw [hm]
    simp only [withPlanner]
    have h1 := (update_vitals_sets s.planner hp ep he).1
    have h2 := (update_vitals_sets s.planner hp ep he).2
    split_ifs <;> simp_all
  · intro s st en he hm htravel hlog
    unfold stagePrompt
    rw [hm]
    simp only [htravel, hlog, Bool.false_eq_true, if_false, ite_false,
      Bool.not_eq_true, not_false_eq_true, if_true, ite_true, withPlannerE,
      withPlanner, consumeAt]
    have ha := activate_fields s.planner he
    have hn := note_event_preserves (activate s.planner).1 "Reached status prompt"
    have hr := request_commands_eq
      (note_event (activate s.planner).1 "Reached status prompt") "prompt"
      (by rw [hn.1, ha.2.1]) (by rw [hn.2.1, ha.1])
    refine ⟨trivial, ?_, ?_, ?_⟩
    · rw [hr.2.2.1, hn.2.1, ha.1]
    · rw [hr.1]
    · rw [hr.2.2.2, ha.2.2.2]; rfl
  · intro s st en he ha hm htravel hlog
    unfold stagePrompt
    rw [hm]
    simp only [htravel, hlog, Bool.false_eq_true, if_false, ite_false,
      Bool.not_eq_true, not_false_eq_true, not_true_eq_false, if_true, ite_true,
      withPlannerE, withPlanner, consumeAt]
    have hn := note_event_preserves s.planner "Status prompt available"
    have hr := request_commands_eq (note_event s.planner "Status prompt available")
      "prompt" (by rw [hn.1, he]) (by rw [hn.2.1, ha])
    exact ⟨hr.1, by rw [hr.2.2.2]; rfl⟩

/-- C2 witness: the amended behavior at the concrete first and subsequent
prompt sessions. -/
theorem C2_amended_prompt_behavior_witness :
    ((stageStatus c2Session).1.planner.lastHp = some 100 ∧
     (stageStatus c2Session).1.planner.lastEp = some 100) ∧
    ((stagePrompt c2Session).1.loggedIn = true ∧
     (stagePrompt c2Session).1.planner.active = true ∧
     (stagePrompt c2Session).1.planner.pendingReason = some "prompt" ∧
     (stagePrompt c2Session).2.1 =
       [Effect.displayed "event" "Login successful; interactive prompt ready",
        Effect.wake "session start", Effect.wake "prompt"]) ∧
    ((stagePrompt c2LoggedSession).1.planner.pendingReason = some "prompt" ∧
     (stagePrompt c2LoggedSession).2.1 = [Effect.wake "prompt"]) :=
  ⟨C2_amended_prompt_behavior.1 c2Session 0 16 100 100 (by decide) (by decide),
   C2_amended_prompt_behavior.2.1 c2Session 0 16 (by decide) (by decide)
     (by decide) (by decide),
   C2_amended_prompt_behavior.2.2 c2LoggedSession 0 16 (by decide) (by decide)
     (by decide) (by decide) (by decide)⟩

/-- On an enabled, active planner, `request_commands` replaces the pending
slot and changes nothing else that the pending-reason contract observes. -/
theorem request_commands_step (p : PlannerState) (r : String)
    (he : p.enabled = true) (ha : p.active = true) :
    (request_commands p r).1 =
      { p with pendingReason := some r, requestEventSet := true } := by
  simp [request_commands, he, ha]

/-- On an active planner with a nonempty transcript, `_build_prompt`
consumes the pending reason and changes nothing else. -/
theorem build_prompt_step (p : PlannerState) (ha : p.active = true)
    (ht : pyStrip (String.join p.transcript) ≠ "") :
    (build_prompt p).2 = { p with pendingReason := none } := by
  simp [build_prompt, ha, ht]

/-- On an active planner with a nonempty transcript, `_build_prompt` does
produce a payload. -/
theorem build_prompt_some (p : PlannerState) (ha : p.active = true)
    (ht : pyStrip (String.join p.transcript) ≠ "") :
    (build_prompt p).1.isSome = true := by
  simp [build_prompt, ha, ht]

/-- C3: at most one pending wake reason exists at a time — the pending slot
is a single option cell: a `request_commands` while a reason is pending
replaces it (latest reason wins, nothing is queued), and a prompt-build
step consumes it, resetting it to none; over every interleaving of the two
operations on an enabled, active planner with buffered context, the slot
holds exactly the latest reason not yet consumed by a build. -/
theorem C3_pending_reason_single_slot :
    ∀ (p : PlannerState) (ops : List PlannerOp),
      p.enabled = true → p.active = true →
      pyStrip (String.join p.transcript) ≠ "" →
      (runOps p ops).pendingReason = specPendingAfter p.pendingReason ops := by
  intro p ops
  induction ops generalizing p with
  | nil => intro _ _ _; rfl
  | cons op rest ih =>
    intro he ha ht
    cases op with
    | req r =>
      have hs := request_commands_step p r he ha
      show (runOps (plannerOpStep p (PlannerOp.req r)) rest).pendingReason = _
      simp only [plannerOpStep, hs]
      exact ih { p with pendingReason := some r, requestEventSet := true } he ha ht
    | build =>
      have hs := build_prompt_step p ha ht
      show (runOps (plannerOpStep p PlannerOp.build) rest).pendingReason = _
      simp only [plannerOpStep, hs]
      exact ih { p with pendingReason := none } he ha ht

/-- C3 witness: a concrete interleaving — two requests, a build, another
request — ends with exactly the last reason pending. -/
theorem C3_pending_reason_single_slot_witness :
    (runOps contextPlanner
      [PlannerOp.req "prompt", PlannerOp.req "enemy spotted", PlannerOp.build,
       PlannerOp.req "pagination"]).pendingReason =
      specPendingAfter contextPlanner.pendingReason
        [PlannerOp.req "prompt", PlannerOp.req "enemy spotted", PlannerOp.build,
         PlannerOp.req "pagination"] :=
  C3_pending_reason_single_slot contextPlanner
    [PlannerOp.req "prompt", PlannerOp.req "enemy spotted", PlannerOp.build,
     PlannerOp.req "pagination"] (by decide) (by decide) (by decide)

/-- C4: given the oracle response body
`{"response": "{\"commands\": [\"look\",\"north\"]}"}` — a JSON object whose
`response` string field itself parses as an object with a `commands`
array — the extraction returns exactly `["look", "north"]`, in order; the
directly-returned `{"commands": [...]}` shape is accepted identically (with
the default `max_commands = 3`). -/
theorem C4_extraction_both_shapes :
    extract_commands 3 (some c4WrappedPayload) = ["look", "north"] ∧
    extract_commands 3 (some c4DirectPayload) = ["look", "north"] := by
  decide

/-- One structured entry never contributes an empty command. -/
theorem structuredAcc_no_empty (acc : List String) (e : JValue)
    (h : "" ∉ acc) : "" ∉ structuredAcc acc e := by
  cases e <;> simp only [structuredAcc] <;> try exact h
  case jstr s =>
    split_ifs with hc
    · exact h
    · intro hmem
      rcases List.mem_append.mp hmem with h1 | h1
      · exact h h1
      · exact hc (List.mem_singleton.mp h1).symm

/-- The structured-commands loop never yields an empty command beyond those
already accumulated. -/
theorem collectStructured_no_empty (maxCmds : Nat) (entries : List JValue) :
    ∀ acc : List String, "" ∉ acc → "" ∉ collectStructured maxCmds entries acc := by
  induction entries with
  | nil => intro acc h; simpa [collectStructured] using h
  | cons e rest ih =>
    intro acc h
    have hacc2 := structuredAcc_no_empty acc e h
    simp only [collectStructured]
    split_ifs
    · exact hacc2
    · exact ih _ hacc2

/-- The line fallback never yields an empty command beyond those already
accumulated. -/
theorem fallbackLines_no_empty (maxCmds : Nat) (lines : List String) :
    ∀ acc : List String, "" ∉ acc → "" ∉ fallbackLines maxCmds lines acc := by
  induction lines with
  | nil => intro acc h; simpa [fallbackLines] using h
  | cons line rest ih =>
    intro acc h
    simp only [fallbackLines]
    split_ifs with h1 h2 h3 h4 h5 h6 h7 <;> try exact ih _ h
    all_goals {
      have hacc2 : "" ∉ acc ++ [pyStrip (pyStripChar '#' (pyStrip line))] := by
        intro hmem
        rcases List.mem_append.mp hmem with hm | hm
        · exact h hm
        · exact h2 (List.mem_singleton.mp hm).symm
      first | exact hacc2 | exact ih _ hacc2
    }

/-- `_extract_commands` never yields an empty command, at any fuel. -/
theorem extractCommandsFuel_no_empty (maxCmds : Nat) :
    ∀ (fuel : Nat) (payload : Option String),
      "" ∉ extractCommandsFuel maxCmds fuel payload := by
  intro fuel
  induction fuel with
  | zero =>
    intro payload
    cases payload <;> simp [extractCommandsFuel]
  | succ n ih =>
    intro payload
    cases payload with
    | none => simp [extractCommandsFuel]
    | some s =>
      simp only [extractCommandsFuel]
      split_ifs with h1
      · simp
      · split
        · rename_i fields heq
          split_ifs with h2
          · split
            · rename_i sv hs
              exact ih (some sv)
            all_goals simp
          · split
            · rename_i entries hc
              split_ifs with h3
              · exact collectStructured_no_empty maxCmds entries [] (by simp)
              · exact fallbackLines_no_empty maxCmds _ [] (by simp)
            all_goals exact fallbackLines_no_empty maxCmds _ [] (by simp)
        · exact fallbackLines_no_empty maxCmds _ [] (by simp)

/-- C5 counterexample: for the structured response
`{"commands": ["", "look"]}` the explicit empty-string entry is discarded by
extraction, and a worker round on that response transmits `look` only — no
bare newline is sent for the empty entry. -/
theorem C5_counterexample :
    extract_commands 3 (some c5Payload) = ["look"] ∧
    Effect.sentBlank ∉ (worker_round c6Session [AttemptResult.success c5Payload]).2 ∧
    countSends "" (worker_round c6Session [AttemptResult.success c5Payload]).2 = 0 ∧
    countSends "look" (worker_round c6Session [AttemptResult.success c5Payload]).2 = 1 := by
  decide

/-- C5 (amended): an explicit empty-string entry in the structured commands
array is not interpreted as "press enter": extraction strips each string
entry and keeps only nonempty results (the line fallback likewise), so the
extracted command list never contains the empty string and the dispatcher
is never handed one; blank lines are transmitted only by the deterministic
pagination path (`send_blank`). -/
theorem C5_no_empty_command_extracted :
    ∀ (maxCmds : Nat) (payload : Option String),
      "" ∉ extract_commands maxCmds payload := by
  intro maxCmds payload
  cases payload with
  | none => simp [extract_commands]
  | some s => exact extractCommandsFuel_no_empty maxCmds (s.length + 1) (some s)

/-- A run of failing attempts leaves no payload and exactly the last error
recorded. -/
theorem queryLoop_all_fail :
    ∀ (attempts : List AttemptResult) (lastError : Option String),
      attempts ≠ [] → (∀ a ∈ attempts, a.failed = true) →
      ∃ m, queryLoop attempts lastError = (none, some m) := by
  intro attempts
  induction attempts with
  | nil => intro le h _; exact absurd rfl h
  | cons a rest ih =>
    intro lastError _ hall
    have hf : a.failed = true := hall a (by simp)
    cases a with
    | success body => simp [AttemptResult.failed] at hf
    | httpError st =>
      cases rest with
      | nil => exact ⟨"HTTP " ++ toString st, rfl⟩
      | cons b bs =>
        exact ih (some ("HTTP " ++ toString st)) (by simp)
          (fun x hx => hall x (List.mem_cons_of_mem _ hx))
    | netTimeout =>
      cases rest with
      | nil => exact ⟨"timeout", rfl⟩
      | cons b bs =>
        exact ih (some "timeout") (by simp)
          (fun x hx => hall x (List.mem_cons_of_mem _ hx))
    | transportError msg =>
      cases rest with
      | nil => exact ⟨msg, rfl⟩
      | cons b bs =>
        exact ih (some msg) (by simp)
          (fun x hx => hall x (List.mem_cons_of_mem _ hx))

/-- C6 counterexample: a round whose HTTP call succeeds but returns the
malformed (non-JSON) body `go north` does not degrade to zero commands:
the permissive line fallback turns the body into a command, which is sent,
and no error line is surfaced. -/
theorem C6_counterexample :
    (worker_round c6Session [AttemptResult.success "go north"]).2 =
      [Effect.sentCmd "go north" "ollama",
       Effect.displayed "ollama" ">>> go north"] ∧
    countErrLines (worker_round c6Session [AttemptResult.success "go north"]).2 = 0 := by
  decide

/-- C6 (amended): when the HTTP call fails (timeout, non-200 status or
transport error) on every configured attempt, the worker round sends zero
commands and surfaces exactly one error line, completing normally; an empty
response body likewise yields zero commands (with no error line).  A
malformed non-JSON body instead degrades to the permissive line-based
fallback rather than to zero commands. -/
theorem C6_failed_round_sends_nothing :
    (∀ (s : SessionState) (attempts : List AttemptResult),
        s.planner.enabled = true → s.planner.active = true →
        pyStrip (String.join s.planner.transcript) ≠ "" →
        attempts ≠ [] → (∀ a ∈ attempts, a.failed = true) →
        ∃ m, (worker_round s attempts).2 = [Effect.errLine m]) ∧
    (∀ (maxCmds : Nat) (body : String),
        pyStrip body = "" → extract_commands maxCmds (some body) = []) := by
  constructor
  · intro s attempts he ha ht hne hall
    obtain ⟨m, hq⟩ := queryLoop_all_fail attempts none hne hall
    simp only [worker_round, withPlanner]
    have ha0 : ({ s.planner with requestEventSet := false } : PlannerState).active = true := ha
    have ht0 : pyStrip (String.join
        ({ s.planner with requestEventSet := false } : PlannerState).transcript) ≠ "" := ht
    have hbs := build_prompt_some { s.planner with requestEventSet := false } ha0 ht0
    rcases hbp : (build_prompt { s.planner with requestEventSet := false }).1 with _ | prompt
    · rw [hbp] at hbs; simp at hbs
    · refine ⟨"[ollama] request failed: " ++ m, ?_⟩
      rw [build_prompt_step _ ha0 ht0]
      simp only [query_ollama, he, Bool.not_eq_true, not_true_eq_false,
        Bool.true_eq_false, if_false, ite_false, if_true, ite_true]
      rw [hq]
      simp [extract_commands, sendAll]
  · intro maxCmds body hb
    simp [extract_commands, extractCommandsFuel, hb]

/-- C6 witness: a round of four failing attempts (the default three retries
plus the initial attempt) against the concrete active session. -/
theorem C6_failed_round_sends_nothing_witness :
    (∃ m, (worker_round c6Session
        [AttemptResult.netTimeout, AttemptResult.netTimeout,
         AttemptResult.netTimeout, AttemptResult.httpError 500]).2 =
      [Effect.errLine m]) ∧
    extract_commands 3 (some "  ") = [] :=
  ⟨C6_failed_round_sends_nothing.1 c6Session
      [AttemptResult.netTimeout, AttemptResult.netTimeout,
       AttemptResult.netTimeout, AttemptResult.httpError 500]
      (by decide) (by decide) (by decide) (by decide)
      (by intro a ha; fin_cases ha <;> decide),
   C6_failed_round_sends_nothing.2 3 "  " (by decide)⟩

/-- C7: enemy-sighting deduplication.  For an enemy line whose normalised
(whitespace-collapsed, lowercased) name was last announced at time `t`, a
repeat sighting at `now` with `now - t ≤ 45` emits no event, no wake and no
planner change, while a sighting with `now - t > 45` re-announces the foe,
wakes the planner, and refreshes the stored timestamp. -/
theorem C7_enemy_sighting_dedup :
    ∀ (s : SessionState) (st en : Nat) (nm lvl : String) (t now : ℚ),
      s.planner.enabled = true → s.planner.active = true →
      TARGET_LINE_PATTERN s.buffer = some (st, en, (nm, lvl)) →
      lookupTime s.recentTargets (normalizeName (pyStrip nm)) = t →
      ((now - t ≤ TARGET_MEMORY_SECONDS →
         (stageEnemy now s).2.1 = [] ∧
         (stageEnemy now s).1.recentTargets = s.recentTargets ∧
         (stageEnemy now s).1.planner = s.planner) ∧
       (TARGET_MEMORY_SECONDS < now - t →
         (stageEnemy now s).2.1 =
           [Effect.displayed "event"
              ("Potential foe spotted: " ++ pyStrip nm ++ " (lvl " ++ lvl ++ ")"),
            Effect.wake "enemy spotted"] ∧
         (stageEnemy now s).1.recentTargets =
           setTime s.recentTargets (normalizeName (pyStrip nm)) now)) := by
  intro s st en nm lvl t now he ha hm hl
  simp only [stageEnemy, hm, hl, withPlanner, withPlannerE, removeAt]
  constructor
  · intro hle
    rw [if_neg (not_lt.mpr hle)]
    exact ⟨rfl, rfl, rfl⟩
  · intro hlt
    rw [if_pos hlt]
    have hn := note_event_preserves s.planner
      ("Potential foe spotted: " ++ pyStrip nm ++ " (lvl " ++ lvl ++ ")")
    have hr := request_commands_eq
      (note_event s.planner
        ("Potential foe spotted: " ++ pyStrip nm ++ " (lvl " ++ lvl ++ ")"))
      "enemy spotted" (by rw [hn.1, he]) (by rw [hn.2.1, ha])
    constructor
    · rw [hr.2.2.2]; rfl
    · rfl

/-- C7 witness: the foe `orc`, announced at time 10, is silent at time 50
(40 seconds later) and re-announced at time 56 (46 seconds later). -/
theorem C7_enemy_sighting_dedup_witness :
    ((50 : ℚ) - 10 ≤ TARGET_MEMORY_SECONDS ∧
     (stageEnemy 50 c7Session).2.1 = [] ∧
     (stageEnemy 50 c7Session).1.recentTargets = c7Session.recentTargets) ∧
    (TARGET_MEMORY_SECONDS < (56 : ℚ) - 10 ∧
     (stageEnemy 56 c7Session).2.1 =
       [Effect.displayed "event" "Potential foe spotted: orc (lvl 3)",
        Effect.wake "enemy spotted"]) := by
  have h := C7_enemy_sighting_dedup c7Session 0 10 "orc" "3" 10 50
    (by decide) (by decide) (by decide) (by decide)
  have h2 := C7_enemy_sighting_dedup c7Session 0 10 "orc" "3" 10 56
    (by decide) (by decide) (by decide) (by decide)
  have hle : (50 : ℚ) - 10 ≤ TARGET_MEMORY_SECONDS := by
    norm_num [TARGET_MEMORY_SECONDS]
  have hlt : TARGET_MEMORY_SECONDS < (56 : ℚ) - 10 := by
    norm_num [TARGET_MEMORY_SECONDS]
  exact ⟨⟨hle, (h.1 hle).1, (h.1 hle).2.1⟩, ⟨hlt, (h2.2 hlt).1⟩⟩

/-- C8: `update_location` with the same (stripped) value as the recorded
location increments the repeat counter and appends no `[location]` line
(only a `[location-repeat]` line while the streak is at most 3); with a
different nonempty value it replaces the stored location, appends exactly
one `[location]` line and resets the counter to 1. -/
theorem C8_update_location_dedup :
    ∀ (p : PlannerState) (loc : String),
      p.enabled = true → pyStrip loc ≠ "" →
      ((p.location = some (pyStrip loc) →
         (update_location p loc).locationStreak = p.locationStreak + 1 ∧
         (update_location p loc).location = p.location ∧
         ((p.locationStreak + 1 ≤ 3 ∧
           (update_location p loc).transcript =
             append_transcript p.maxContextChars p.transcript
               ("[location-repeat] " ++ pyStrip loc ++ " x" ++
                toString (p.locationStreak + 1) ++ "\n")) ∨
          (3 < p.locationStreak + 1 ∧
           (update_location p loc).transcript = p.transcript))) ∧
       (p.location ≠ some (pyStrip loc) →
         (update_location p loc).location = some (pyStrip loc) ∧
         (update_location p loc).locationStreak = 1 ∧
         (update_location p loc).transcript =
           append_transcript p.maxContextChars p.transcript
             ("[location] " ++ pyStrip loc ++ "\n"))) := by
  intro p loc he hne
  simp only [update_location, PlannerState.appendT, he, hne, not_true_eq_false,
    Bool.true_eq_false, if_false, ite_false]
  constructor
  · intro hsame
    rw [if_pos hsame]
    by_cases h3 : p.locationStreak + 1 ≤ 3
    · rw [if_pos h3]
      exact ⟨rfl, hsame.symm ▸ rfl, Or.inl ⟨h3, rfl⟩⟩
    · rw [if_neg h3]
      exact ⟨rfl, rfl, Or.inr ⟨Nat.lt_of_not_le h3, rfl⟩⟩
  · intro hdiff
    rw [if_neg hdiff]
    exact ⟨rfl, rfl, rfl⟩

/-- C8 witness: the repeated and the changed location on a concrete planner
state (location `The Inn`, streak 1). -/
theorem C8_update_location_dedup_witness :
    ((update_location c8Planner "The Inn").locationStreak =
        c8Planner.locationStreak + 1 ∧
     (update_location c8Planner "The Inn").location = c8Planner.location) ∧
    ((update_location c8Planner "Bree").location = some "Bree" ∧
     (update_location c8Planner "Bree").locationStreak = 1) := by
  have h1 := C8_update_location_dedup c8Planner "The Inn" (by decide) (by decide)
  have h2 := C8_update_location_dedup c8Planner "Bree" (by decide) (by decide)
  have hs := h1.1 (by decide)
  have hd := h2.2 (by decide)
  exact ⟨⟨hs.1, hs.2.1⟩, ⟨hd.1, hd.2.1⟩⟩

/-- C9 counterexample: with the connection handle gone, `send_command` is
not silent — it emits one error line (while writing no bytes). -/
theorem C9_counterexample :
    (send_command "look" "ollama" c9Session).2 =
      [Effect.displayed "error" "Cannot send command while disconnected"] ∧
    (send_command "look" "ollama" c9Session).2 ≠ [] := by
  decide

/-- C9 (amended): a send attempted while the connection handle is gone
writes no bytes, raises no exception and leaves the session (including the
planner) unchanged; `send_blank` no-ops silently, while `send_command`
additionally emits a single local error line — so an oracle round finishing
after teardown cannot act on a dead connection. -/
theorem C9_dead_connection_noop :
    ∀ (cmd src : String) (s : SessionState), s.connection = false →
      (send_command cmd src s).1 = s ∧
      (send_command cmd src s).2 =
        [Effect.displayed "error" "Cannot send command while disconnected"] ∧
      send_blank s = (s, ([] : List Effect)) := by
  intro cmd src s hc
  simp [send_command, send_blank, hc]

/-- C9 witness: the dead-connection behavior at the concrete disconnected
session. -/
theorem C9_dead_connection_noop_witness :
    (send_command "north" "ollama" c9Session).1 = c9Session ∧
    (send_command "north" "ollama" c9Session).2 =
      [Effect.displayed "error" "Cannot send command while disconnected"] ∧
    send_blank c9Session = (c9Session, ([] : List Effect)) :=
  C9_dead_connection_noop "north" "ollama" c9Session (by decide)

/-- Command-count over concatenated effect lists. -/
theorem countSends_append (k : String) (a b : List Effect) :
    countSends k (a ++ b) = countSends k a + countSends k b := by
  simp [countSends, List.countP_append]

theorem send_command_count_ne (k c src : String) (s : SessionState) (hck : c ≠ k) :
    countSends k (send_command c src s).2 = 0 := by
  simp only [send_command]
  split_ifs <;> simp [countSends, List.countP_cons, hck]

theorem send_command_count_le (c src : String) (s : SessionState) :
    countSends c (send_command c src s).2 ≤ 1 := by
  simp only [send_command]
  split_ifs <;> simp [countSends, List.countP_cons]

theorem send_command_keeps (c src : String) (s : SessionState) :
    (send_command c src s).1.profile = s.profile ∧
    (send_command c src s).1.usernameSent = s.usernameSent ∧
    (send_command c src s).1.passwordSent = s.passwordSent := by
  simp only [send_command, withPlanner]
  split_ifs <;> simp
theorem credStep_spec (s : SessionState) (prof : CharacterProfile)
    (hp : s.profile = some prof) (hne : prof.username ≠ prof.password) :
    (credStep s).1.profile = some prof ∧
    countSends prof.password (credStep s).2 + pwPotential (credStep s).1 ≤
      pwPotential s ∧
    countSends prof.username (credStep s).2 + unPotential (credStep s).1 ≤
      unPotential s := by
  unfold credStep
  rw [hp]
  unfold stageUsername stagePassword
  by_cases hu : s.usernameSent = true
  · simp only [hu, if_true, ite_true]
    by_cases hpw : s.passwordSent = true
    · simp [hpw, countSends, pwPotential, unPotential, hp]
    · simp only [hpw, if_false, ite_false, Bool.false_eq_true]
      cases hm : firstPatternMatch PASSWORD_PATTERNS s.buffer with
      | none => simp [countSends, pwPotential, unPotential, hp, hu, hpw]
      | some m =>
        obtain ⟨st, en, u⟩ := m
        simp only [hu, not_true_eq_false, Bool.false_eq_true, if_false, ite_false]
        have hk := send_command_keeps prof.password "system" s
        have hc1 := send_command_count_le prof.password "system" s
        have hc2 := send_command_count_ne prof.username prof.password "system" s
          (fun h => hne h.symm)
        refine ⟨?_, ?_, ?_⟩
        · simp [consumeAt, hk.1, hp]
        · simp only [consumeAt, countSends_append, pwPotential, hpw]
          simp [countSends, hpw] at hc1 ⊢
          omega
        · simp only [consumeAt, countSends_append, unPotential]
          simp only [hc2]
          simp [hu, hpw, countSends, hk.2.1]
  · have hu' : s.usernameSent = false := by simpa using hu
    simp only [hu', Bool.false_eq_true, if_false, ite_false]
    cases hum : firstPatternMatch USERNAME_PATTERNS s.buffer with
    | some m =>
      obtain ⟨st, en, u⟩ := m
      have hk := send_command_keeps prof.username "system" s
      have hc1 := send_command_count_le prof.username "system" s
      have hc2 := send_command_count_ne prof.password prof.username "system" s hne
      refine ⟨?_, ?_, ?_⟩
      · simp [consumeAt, hk.1, hp]
      · simp [consumeAt, pwPotential, hc2, hk.2.2]
      · simp only [consumeAt, unPotential]
        simp only [countSends] at hc1
        simp [hu', hk.2.2, countSends]
        exact hc1
    | none =>
      by_cases hpw : s.passwordSent = true
      · simp [hpw, countSends, pwPotential, unPotential, hp]
      · simp only [hpw, if_false, ite_false, Bool.false_eq_true]
        cases hm : firstPatternMatch PASSWORD_PATTERNS s.buffer with
        | none => simp [countSends, pwPotential, unPotential, hp, hu', hpw]
        | some m =>
          obtain ⟨st, en, u⟩ := m
          simp only [hu', Bool.false_eq_true, not_false_eq_true, if_true, ite_true]
          have hk1 := send_command_keeps prof.username "system" s
          have hu1 := send_command_count_le prof.username "system" s
          have hp1 := send_command_count_ne prof.password prof.username "system" s hne
          have hk2 := send_command_keeps prof.password "system"
            (send_command prof.username "system" s).1
          have hp2 := send_command_count_le prof.password "system"
            (send_command prof.username "system" s).1
          have hu2 := send_command_count_ne prof.username prof.password "system"
            (send_command prof.username "system" s).1 (fun h => hne h.symm)
          refine ⟨?_, ?_, ?_⟩
          · simp [consumeAt, hk2.1, hk1.1, hp]
          · simp only [consumeAt, countSends_append, pwPotential, hpw]
            simp only [countSends] at hp1 hp2
            simp [countSends, hpw, hp1]
            exact hp2
          · simp only [consumeAt, countSends_append, unPotential]
            simp only [countSends] at hu1 hu2
            simp [countSends, hu2, hu', hpw, hk2.2.1, hk1.2.1]
            omega
theorem credRun_spec (prof : CharacterProfile) (hne : prof.username ≠ prof.password) :
    ∀ (chunks : List String) (s : SessionState), s.profile = some prof →
      (credRun s chunks).1.profile = some prof ∧
      countSends prof.password (credRun s chunks).2 + pwPotential (credRun s chunks).1 ≤
        pwPotential s ∧
      countSends prof.username (credRun s chunks).2 + unPotential (credRun s chunks).1 ≤
        unPotential s := by
  intro chunks
  induction chunks with
  | nil => intro s hp; simpa [credRun, countSends] using hp
  | cons chunk rest ih =>
    intro s hp
    simp only [credRun]
    have hstep := credStep_spec { s with buffer := s.buffer ++ chunk } prof
      (by simpa using hp) hne
    have hrec := ih (credStep { s with buffer := s.buffer ++ chunk }).1 hstep.1
    have hbp : pwPotential ({ s with buffer := s.buffer ++ chunk } : SessionState) =
        pwPotential s := rfl
    have hbu : unPotential ({ s with buffer := s.buffer ++ chunk } : SessionState) =
        unPotential s := rfl
    rw [hbp] at hstep
    rw [hbu] at hstep
    refine ⟨hrec.1, ?_, ?_⟩
    · rw [countSends_append]
      have h1 := hstep.2.1
      have h2 := hrec.2.1
      omega
    · rw [countSends_append]
      have h1 := hstep.2.2
      have h2 := hrec.2.2
      omega

/-- C10 counterexample: with a password prompt arriving before any username
prompt, the password branch sends the username without marking it sent, and
a later username prompt triggers a second username send — two sends of the
profile username within one connection. -/
theorem C10_counterexample :
    countSends "Marchos" (c10FirstStep.2 ++ c10SecondStep.2) = 2 := by
  decide

/-- C10 (amended): within a single connection the credential detectors send
the profile password at most once; the profile username is sent at most
twice (once by the password branch when a password prompt precedes any
username prompt — which does not mark the username as sent — and once by
the username branch), over every sequence of incoming chunks. -/
theorem C10_credentials_bounded :
    ∀ (s : SessionState) (prof : CharacterProfile) (chunks : List String),
      s.profile = some prof →
      prof.username ≠ prof.password →
      s.usernameSent = false → s.passwordSent = false →
      countSends prof.password (credRun s chunks).2 ≤ 1 ∧
      countSends prof.username (credRun s chunks).2 ≤ 2 := by
  intro s prof chunks hp hne hu hpw
  have h := credRun_spec prof hne chunks s hp
  have h1 := h.2.1
  have h2 := h.2.2
  have hb1 : pwPotential s = 1 := by simp [pwPotential, hpw]
  have hb2 : unPotential s = 2 := by simp [unPotential, hu, hpw]
  rw [hb1] at h1
  rw [hb2] at h2
  omega

/-- C10 witness: the concrete two-chunk connection (password prompt, then
username prompt) stays inside the amended bounds. -/
theorem C10_credentials_bounded_witness :
    countSends "hello123" (credRun connectedSession ["Password:", "Enter your name:"]).2 ≤ 1 ∧
    countSends "Marchos" (credRun connectedSession ["Password:", "Enter your name:"]).2 ≤ 2 :=
  C10_credentials_bounded connectedSession marchosProfile
    ["Password:", "Enter your name:"] (by decide) (by decide) (by decide) (by decide)

end T2T
